import Mathlib

/-!
Verification development for the db4sphinx DocBook-to-docutils converter.

The development shallowly embeds the converter of `db4sphinx/dbparser.py`
(class `DocbookConverter`) and the assembly bookkeeping of
`db4sphinx/ext.py` (class `DocbookAssemblyInfo`).

Modelling conventions:
* lxml elements are modelled by `Elem` (qualified tag string, attribute
  association list, optional leading text, ordered children each with an
  optional tail text).  lxml `_Comment` / `_ProcessingInstruction` nodes are
  not part of the modelled element type; the claims under study only concern
  ordinary elements, and the corresponding two `isinstance` branches at the
  top of `DocbookConverter._conv` are therefore never taken here.
* docutils output nodes are modelled by an arena (`List ONode`); a node is
  identified by its index, and `parent += node` is `appendChild`.  Keeping
  identities explicit lets us talk about a node occurring at two positions
  of the output tree (aliasing).
* Python exceptions are modelled by `Except PyError`; an expression such as
  `item.text[1]` becomes `optIndex item.text 1`, which raises `typeError`
  when the text is `None` and `indexError` when the index is out of range.
* recursion over the source tree uses explicit fuel; theorems are stated
  for successful runs (`= .ok _`), and witnesses supply concrete fuel.
* the converter's two one-shot text transforms are the closures
  `lambda s: s[1:].lstrip()` (bullet stripping, dbparser.py line 428) and
  `lambda x: re.sub(' +', ' ', x)` (space collapsing, lines 678/684); they
  are represented by the inductive `Mangle` so that states stay decidable.
* external docutils services used by the converter
  (`document.reporter.warning`, `document.set_id`,
  `document.note_autofootnote[_ref]`) are modelled as: appending to a
  warning list, assigning a synthesized id when the node has none, and a
  no-op (the footnote registries do not touch the output tree).
* unused dead helpers of dbparser.py (`join_children`, `has_no_text`,
  `what`, `nested_convert`) have no callers inside the modelled class and
  are not embedded.
-/

/-- Python exception kinds that the embedded code can raise, plus fuel
exhaustion of the embedding's recursion. -/
inductive PyError where
  | typeError
  | indexError
  | keyError
  | valueError
  | attributeError
  | fuelOut
deriving DecidableEq, Repr

/-- Python `s[i]` for a non-negative index: `indexError` out of range. -/
def pyIndex (s : String) (i : Nat) : Except PyError Char :=
  match s.data.get? i with
  | some c => .ok c
  | none => .error .indexError

/-- Python `o[i]` where `o` is `None` or a string (`None` is not
subscriptable: `TypeError`). -/
def optIndex (o : Option String) (i : Nat) : Except PyError Char :=
  match o with
  | none => .error .typeError
  | some s => pyIndex s i

/-- Python `s[-1]`: the last character, `IndexError` on the empty string. -/
def pyLast (s : String) : Except PyError Char :=
  match s.data.getLast? with
  | some c => .ok c
  | none => .error .indexError

/-- Python `str.lstrip()` (strip leading whitespace). -/
def pyLstrip (s : String) : String :=
  ⟨s.data.dropWhile Char.isWhitespace⟩

/-- Python `str.rstrip()` (strip trailing whitespace). -/
def pyRstrip (s : String) : String :=
  ⟨(s.data.reverse.dropWhile Char.isWhitespace).reverse⟩

/-- Python `str.strip()`. -/
def pyStrip (s : String) : String :=
  pyRstrip (pyLstrip s)

/-- Python `str.lower()` (kernel-reducible, unlike `String.toLower`). -/
def pyLower (s : String) : String :=
  ⟨s.data.map Char.toLower⟩

/-- Python `s[1:]`. -/
def pyDropOne (s : String) : String :=
  ⟨s.data.drop 1⟩

/-- Python `tag.find(pre) == 0`: the string starts with `pre` (always true
for the empty prefix, as in the DocBook 4 configuration). -/
def pyStartsWith (s pre : String) : Bool :=
  pre.data.isPrefixOf s.data

/-- Python `s[n:]` (drop the first `n` characters). -/
def strDrop (s : String) (n : Nat) : String :=
  ⟨s.data.drop n⟩

/-- Python `s.split("}")`: split at every closing brace (the separator in
`_conv`'s namespace parsing is that single character). -/
def splitOnBrace : List Char → List (List Char)
  | [] => [[]]
  | c :: rest =>
      let r := splitOnBrace rest
      if c = '}' then [] :: r
      else (c :: r.headD []) :: r.tail

/-- String-level wrapper for `splitOnBrace`. -/
def strSplitBrace (s : String) : List String :=
  (splitOnBrace s.data).map (fun l => ⟨l⟩)

/-- Python `needle in hay` for strings: substring containment. -/
def strHasSub (hay needle : String) : Bool :=
  (List.range (hay.data.length + 1)).any
    (fun i => needle.data.isPrefixOf (hay.data.drop i))

/-- Collapse runs of spaces to one space: `re.sub(' +', ' ', x)`
(dbparser.py lines 678 and 684). -/
def collapseSpaceRuns (s : String) : String :=
  ⟨go s.data⟩
where
  go : List Char → List Char
    | [] => []
    | ' ' :: rest => ' ' :: go (rest.dropWhile (· = ' '))
    | c :: rest => c :: go rest
  termination_by l => l.length
  decreasing_by
    · simp_wf
      have h : (rest.dropWhile (fun x => decide (x = ' '))).length ≤ rest.length :=
        (List.dropWhile_sublist _).length_le
      omega
    · simp_wf

/-- The two one-shot text transforms installed by the converter
(`_text_mangle_fn` / `_listitem_mangle_fn` values). -/
inductive Mangle where
  /-- `lambda s: s[1:].lstrip()` — dbparser.py line 428. -/
  | stripBullet
  /-- `lambda x: re.sub(' +', ' ', x)` — dbparser.py lines 678/684. -/
  | collapseSpaces
deriving DecidableEq, Repr

/-- Apply a one-shot transform. -/
def applyMangle : Mangle → String → String
  | .stripBullet, s => pyLstrip (pyDropOne s)
  | .collapseSpaces, s => collapseSpaceRuns s

/-- The `_title_handler` values installed by the converter: the closure
`section_title_handler` (dbparser.py lines 324-327) and the static method
`rubric` (lines 305-307).  `none` models `None`. -/
inductive THandler where
  | sectionTitle
  | rubric
deriving DecidableEq, Repr

/-- A source element, as handed over by lxml: qualified tag, attribute map,
leading text, and ordered children each carrying its tail text. -/
inductive Elem where
  | mk (tag : String) (attrib : List (String × String)) (text : Option String)
       (children : List (Elem × Option String))

def Elem.tag : Elem → String
  | .mk t _ _ _ => t

def Elem.attrib : Elem → List (String × String)
  | .mk _ a _ _ => a

def Elem.text : Elem → Option String
  | .mk _ _ t _ => t

def Elem.children : Elem → List (Elem × Option String)
  | .mk _ _ _ c => c

/-- lxml `el.get(key)`: attribute lookup, `None` when absent. -/
def Elem.getAttr (el : Elem) (key : String) : Option String :=
  el.attrib.lookup key

/-- `el.findall(tag)` restricted to a plain child-tag path: all children
with the given (qualified) tag, in document order. -/
def Elem.findAll (el : Elem) (t : String) : List Elem :=
  (el.children.filter (fun c => c.1.tag = t)).map (·.1)

/-- `el.find(tag)`: the first child with the given tag. -/
def Elem.findChild (el : Elem) (t : String) : Option Elem :=
  (el.findAll t).head?

/-- docutils node classes produced by the modelled handlers. -/
inductive NodeKind where
  | document | section | title | rubric | paragraph | compound
  | block_quote | epigraph | sidebar
  | note | caution | important | tip | warning
  | literal_block | definition_list | definition_list_item | term | definition
  | bullet_list | enumerated_list | list_item
  | emphasis | strong | literal | inline | subscript | superscript
  | footnote | footnote_reference | reference | comment | math_block
  | textLeaf
deriving DecidableEq, Repr

/-- One entry of a docutils node's `ids` attribute.  Python's dynamic typing
lets the converter store heterogeneous values there:
* `str`: an ordinary id string;
* `chr`: `no_markup` assigns a list of characters to `node['ids']`
  (`no_markup_text` runs `ids += xml_id`, extending a list with the
  characters of a string);
* `chrList`: `e_indexterm` passes that character list positionally into
  `inline_text`'s `xml_id` parameter, so `create_node` stores `[xml_id]` —
  a single entry that is itself the character list;
* `anchorList`: `create_node` appends the whole `_anchors` list (which can
  contain `None` entries, since `e_anchor` appends `el.get(...)`) as one
  entry (`node['ids'].append(self._anchors)`). -/
inductive IdEntry where
  | str (s : String)
  | chr (c : Char)
  | chrList (l : List Char)
  | anchorList (l : List (Option String))
deriving DecidableEq, Repr

/-- A docutils output node in the arena: its class, `ids`, `classes`,
other attributes (a value of `none` models Python `None`), text payload
(for `Text` and `comment` nodes) and the ids of its children. -/
structure ONode where
  kind : NodeKind
  ids : List IdEntry := []
  classes : List String := []
  attrs : List (String × Option String) := []
  text : String := ""
  children : List Nat := []
deriving DecidableEq, Repr

def dfltONode : ONode := { kind := .textLeaf }

/-- Arena read: node with a given id. -/
def getN (a : List ONode) (i : Nat) : ONode :=
  (a.get? i).getD dfltONode

/-- Arena write. -/
def setN (a : List ONode) (i : Nat) (n : ONode) : List ONode :=
  a.set i n

/-- The dynamically-typed values that flow through `create_node` / `node`
parameters `xml_id` and `ids`. -/
inductive PyVal where
  | vNone
  | vStr (s : String)
  | vChars (l : List Char)
deriving DecidableEq, Repr

/-- Python truthiness of such a value (`None`, `''` and `[]` are falsy). -/
def PyVal.truthy : PyVal → Bool
  | .vNone => false
  | .vStr s => s ≠ ""
  | .vChars l => l ≠ []

/-- `[xml_id]` — the single-entry ids list built by `create_node`. -/
def PyVal.asSingleEntry : PyVal → List IdEntry
  | .vNone => []
  | .vStr s => [.str s]
  | .vChars l => [.chrList l]

/-- `node['ids'] = ids` — the value assigned wholesale. -/
def PyVal.asEntries : PyVal → List IdEntry
  | .vNone => []
  | .vStr s => [.str s]
  | .vChars l => l.map .chr

/-- `el.get(...) or None` (converts an empty string to `None`). -/
def orNone : Option String → PyVal
  | none => .vNone
  | some s => if s = "" then .vNone else .vStr s

/-- Converter configuration fixed in `DocbookConverter.__init__`:
DocBook 5 (namespaced) vs DocBook 4. -/
structure Cfg where
  ns : Bool
deriving DecidableEq, Repr

/-- `self._ns` — dbparser.py lines 59-66. -/
def Cfg.nsStr (c : Cfg) : String :=
  if c.ns then "{http://docbook.org/ns/docbook}" else ""

/-- `self._id_attrib`. -/
def Cfg.idAttrib (c : Cfg) : String :=
  if c.ns then "{http://www.w3.org/XML/1998/namespace}id" else "id"

/-- `DocbookConverter._NSMAP` — empty in the base class. -/
def baseNSMAP : List (String × String) := []

/-- The converter's mutable state (`DocbookConverter.__init__` fields, the
output document tree as an arena whose node 0 is the document, and the
diagnostics issued so far).  `idCounter` backs the external
`document.set_id`. -/
structure ConvState where
  arena : List ONode
  save : List Nat
  stack : List String
  anchors : List (Option String)
  notHandledNs : List String
  notHandledTags : List String
  titleHandler : Option THandler
  listitemMangle : Option Mangle
  textMangle : Option Mangle
  orderedListDepth : Nat
  currentLevel : Nat
  warnings : List String
  idCounter : Nat
deriving DecidableEq, Repr

/-- Fresh state for one conversion: empty document node plus the
`__init__` field values. -/
def initState : ConvState where
  arena := [{ kind := .document }]
  save := []
  stack := []
  anchors := []
  notHandledNs := []
  notHandledTags := []
  titleHandler := none
  listitemMangle := none
  textMangle := none
  orderedListDepth := 0
  currentLevel := 0
  warnings := []
  idCounter := 0

/-- `self.warning(el, msg)` — report via the document's reporter. -/
def warn (st : ConvState) (msg : String) : ConvState :=
  { st with warnings := st.warnings ++ [msg] }

/-- `parent += node` for an existing arena node: append the child id to the
parent's children (docutils does not detach the child from any previous
parent, which is what makes aliasing possible). -/
def appendChild (st : ConvState) (pid cid : Nat) : ConvState :=
  let p := getN st.arena pid
  { st with arena := setN st.arena pid ({ p with children := p.children ++ [cid] }) }

/-- Allocate a new node in the arena, returning its id. -/
def pushNode (st : ConvState) (n : ONode) : ConvState × Nat :=
  ({ st with arena := st.arena ++ [n] }, st.arena.length)

/-- `node['classes'] = [cls]`. -/
def setClasses (st : ConvState) (nid : Nat) (cls : List String) : ConvState :=
  let n := getN st.arena nid
  { st with arena := setN st.arena nid ({ n with classes := cls }) }

/-- `node[key] = value` for an ordinary attribute. -/
def setAttr (st : ConvState) (nid : Nat) (key : String) (v : Option String) : ConvState :=
  let n := getN st.arena nid
  let n' := { n with attrs := (n.attrs.filter (fun kv => kv.1 ≠ key)) ++ [(key, v)] }
  { st with arena := setN st.arena nid n' }

/-- Attribute read-back used by the theorems. -/
def getAttrN (st : ConvState) (nid : Nat) (key : String) : Option (Option String) :=
  ((getN st.arena nid).attrs.find? (fun kv => kv.1 = key)).map (·.2)

/-- `self.text(string)` — applies and clears the pending one-shot text
transform (dbparser.py lines 286-290); returns the transformed string,
the `nodes.Text` object being created at append time in this model. -/
def textFn (st : ConvState) (s : String) : ConvState × String :=
  match st.textMangle with
  | some m => ({ st with textMangle := none }, applyMangle m s)
  | none => (st, s)

/-- `parent += self.text(s)`. -/
def appendTextM (st : ConvState) (pid : Nat) (s : String) : ConvState :=
  let (st1, s') := textFn st s
  let (st2, tid) := pushNode st1 { kind := .textLeaf, text := s' }
  appendChild st2 pid tid

/-- `parent += nodes.Text(s)` — direct construction, bypassing
`self.text` and hence the one-shot transform. -/
def appendTextRaw (st : ConvState) (pid : Nat) (s : String) : ConvState :=
  let (st1, tid) := pushNode st { kind := .textLeaf, text := s }
  appendChild st1 pid tid

/-- `parent += nodes.comment(s, s)`. -/
def appendCommentNode (st : ConvState) (pid : Nat) (s : String) : ConvState :=
  let (st1, cid) := pushNode st { kind := .comment, text := s }
  appendChild st1 pid cid

/-- `DocbookConverter.create_node` (dbparser.py lines 159-168): build a
node, set `ids` from `xml_id` or `ids`, and move the pending anchors into
`ids` as one appended entry. -/
def createNode (st : ConvState) (k : NodeKind) (xmlId ids : PyVal) : ConvState × Nat :=
  let baseIds := if xmlId.truthy then xmlId.asSingleEntry else []
  let baseIds := if ids.truthy then ids.asEntries else baseIds
  let (finalIds, anchors') :=
    if st.anchors.length > 0 then (baseIds ++ [.anchorList st.anchors], ([] : List (Option String)))
    else (baseIds, st.anchors)
  pushNode { st with anchors := anchors' } { kind := k, ids := finalIds }

/-- `DocbookConverter.node` (lines 170-176): return the parent unchanged
when both `xml_id` and `klass` are `None`, else create a node of class
`klass or default_klass` and append it to the parent. -/
def nodeFn (st : ConvState) (pid : Nat) (klass : Option NodeKind) (dfltK : NodeKind)
    (xmlId ids : PyVal) : ConvState × Nat :=
  if xmlId = .vNone ∧ klass = none then (st, pid)
  else
    let (st1, nid) := createNode st (klass.getD dfltK) xmlId ids
    (appendChild st1 pid nid, nid)

/-- `DocbookConverter.create` (lines 178-180): like `node`, with the
element's id attribute (empty coerced to `None` by `or None`). -/
def createFn (cfg : Cfg) (st : ConvState) (el : Elem) (pid : Nat)
    (klass : Option NodeKind) (dfltK : NodeKind) : ConvState × Nat :=
  nodeFn st pid klass dfltK (orNone (el.getAttr cfg.idAttrib)) .vNone

/-- `document.set_id(node)`.  Modelled from the spec: docutils is an
external collaborator; `set_id` registers the node's ids and, when the node
has none, synthesizes a fresh one and appends it. -/
def setIdFn (st : ConvState) (nid : Nat) : ConvState :=
  let n := getN st.arena nid
  if n.ids = [] then
    let n' := { n with ids := [.str ("id" ++ toString (st.idCounter + 1))] }
    { st with arena := setN st.arena nid n', idCounter := st.idCounter + 1 }
  else st

/-- `supports_only`'s `tags` argument.  Several call sites pass a
parenthesized string without a trailing comma — a plain string, not a
1-tuple — so Python's `in` performs a substring test there
(e.g. `supports_only(el, (self._ns + "listitem"))` at line 420). -/
inductive TagSpec where
  | one (s : String)
  | many (l : List String)

/-- `i.tag not in tags`, negated. -/
def tagAllowed (spec : TagSpec) (t : String) : Bool :=
  match spec with
  | .one s => strHasSub s t
  | .many l => l.contains t

/-- `DocbookConverter.supports_only` (lines 126-130): warn for each
unexpected child. -/
def supportsOnly (st : ConvState) (el : Elem) (spec : TagSpec) : ConvState :=
  el.children.foldl
    (fun s c =>
      if tagAllowed spec c.1.tag then s
      else warn s (el.tag ++ "/" ++ c.1.tag ++ " skipped."))
    st

/-- `get_path` renders the chain of source ancestors; lxml's
`iterancestors` is unavailable without parent pointers, and the converter's
`_stack` holds exactly the tags of the open elements at this point, so the
path is rendered from it. -/
def getPathS (st : ConvState) : String :=
  String.intercalate "/" st.stack.reverse

/-- `DocbookConverter.has_only_text` (lines 141-145): warn when the element
has children. -/
def hasOnlyText (st : ConvState) (el : Elem) : ConvState :=
  if el.children.isEmpty then st
  else
    warn st ("children of " ++ getPathS st ++ " are skipped: " ++
      String.intercalate ", " (el.children.map (fun c => "<" ++ c.1.tag ++ ">")))

/-! ## Assembly bookkeeping (`ext.py`, class `DocbookAssemblyInfo`) -/

/-- `DocbookAssemblyInfo.__init__`: `children` is a
`defaultdict(list)` mapping a parent document name to its recorded
`(description, child)` edges, `assemblies` maps an assembly document to its
top resource, `roots` is a set of document names. -/
structure AssemblyInfo where
  children : List (String × List (String × String))
  assemblies : List (String × String)
  roots : List String
deriving DecidableEq, Repr

def emptyAssemblyInfo : AssemblyInfo := ⟨[], [], []⟩

/-- `self.children[parent]` with `defaultdict(list)` read semantics. -/
def AssemblyInfo.childrenOf (info : AssemblyInfo) (parent : String) : List (String × String) :=
  ((info.children.find? (fun kv => kv.1 = parent)).map (·.2)).getD []

/-- `DocbookAssemblyInfo.add_child` (ext.py lines 37-38):
`self.children[parent].append((description, child))`. -/
def AssemblyInfo.addChild (info : AssemblyInfo) (parent child description : String) : AssemblyInfo :=
  if (info.children.find? (fun kv => kv.1 = parent)).isSome then
    let upd := fun (kv : String × List (String × String)) =>
      if kv.1 = parent then (kv.1, kv.2 ++ [(description, child)]) else kv
    { info with children := info.children.map upd }
  else
    { info with children := info.children ++ [(parent, [(description, child)])] }

/-- Python `set.remove`: `KeyError` when the element is absent. -/
def pySetRemove (l : List String) (x : String) : Except PyError (List String) :=
  if x ∈ l then .ok (l.erase x) else .error .keyError

/-- `DocbookAssemblyInfo.purge` (ext.py lines 74-79):

```
if docname in self.assemblies:
    self.roots.remove(self.assemblies[docname])
    del self.assemblies[docname]
for key in self.children.keys():
    self.children[key] = [x for x in self.children[key] if x[1] != docname]
``` -/
def AssemblyInfo.purge (info : AssemblyInfo) (docname : String) : Except PyError AssemblyInfo := do
  let info1 ←
    match info.assemblies.lookup docname with
    | some top => do
        let roots' ← pySetRemove info.roots top
        let asm' := info.assemblies.filter (fun kv => kv.1 ≠ docname)
        pure { info with roots := roots', assemblies := asm' }
    | none => pure info
  let ch' := info1.children.map (fun kv => (kv.1, kv.2.filter (fun x => x.2 ≠ docname)))
  pure { info1 with children := ch' }

/-! ## `no_markup_text` and its clients -/

mutual

/-- `DocbookConverter.no_markup_text` (dbparser.py lines 259-277): flatten
an element to plain text.  `ids` is extended with the characters of each id
attribute encountered (`ids += xml_id` extends a list with a string's
characters); the boolean is the running `need_space`. -/
def nmt (cfg : Cfg) : Nat → Elem → List Char → Bool → Except PyError (String × List Char × Bool)
  | 0, _, _, _ => .error .fuelOut
  | f+1, el, ids0, ns0 => do
    let ids1 :=
      match el.getAttr cfg.idAttrib with
      | some xid => ids0 ++ xid.data
      | none => ids0
    let (text1, ns1) ←
      match el.text with
      | some t => do
          let last ← pyLast t
          pure (t, !last.isWhitespace)
      | none => pure ("", ns0)
    nmtChildren cfg f el.children text1 ids1 ns1
termination_by structural f _ _ _ => f

/-- The child loop of `no_markup_text`, threading text, ids and
`need_space` through children and their tails. -/
def nmtChildren (cfg : Cfg) : Nat → List (Elem × Option String) → String → List Char → Bool → Except PyError (String × List Char × Bool)
  | _, [], text, ids, ns => .ok (text, ids, ns)
  | 0, _ :: _, _, _, _ => .error .fuelOut
  | f+1, (c, tl) :: rest, text, ids, ns => do
      let (ct, ids1, ns1) ← nmt cfg f c ids ns
      let text1 := text ++ ct
      let (text2, ns2) ←
        match tl with
        | some tail0 =>
            let tail := if !ns1 then pyLstrip tail0 else tail0
            if tail.length ≠ 0 then do
              let last ← pyLast tail
              pure (text1 ++ tail, !last.isWhitespace)
            else pure (text1, ns1)
        | none => pure (text1, ns1)
      nmtChildren cfg f rest text2 ids1 ns2
termination_by structural f _ _ _ _ => f

end

/-- `DocbookConverter.inline_text` (lines 224-229).  Its only call sites
(`e_indexterm`) pass the accumulated character list positionally into the
`xml_id` parameter. -/
def inlineTextFn (st : ConvState) (text : String) (pid : Nat)
    (inlineClass : Option String) (xmlId : PyVal) : ConvState × Nat :=
  let (st1, nid) := nodeFn st pid (some .inline) .inline xmlId .vNone
  let st2 :=
    match inlineClass with
    | some c => setClasses st1 nid [c]
    | none => st1
  (appendTextM st2 nid text, nid)

/-- `DocbookConverter.no_markup` (lines 279-284). -/
def noMarkupFn (cfg : Cfg) (f : Nat) (el : Elem) (pid : Nat) (klass : NodeKind)
    (st : ConvState) : Except PyError ConvState := do
  let (text, ids, _) ← nmt cfg f el [] false
  let (st1, nid) := nodeFn st pid (some klass) .inline .vNone (.vChars ids)
  pure (appendTextM st1 nid text)

/-- `DocbookConverter.e_indexterm` (lines 571-601). -/
def indextermFn (cfg : Cfg) (f : Nat) (el : Elem) (pid : Nat)
    (st : ConvState) : Except PyError ConvState := do
  let st1 := supportsOnly st el
      (.many (["primary", "secondary", "see", "seealso"].map (cfg.nsStr ++ ·)))
  match el.findAll (cfg.nsStr ++ "primary") with
  | [] => pure (warn st1 "indexterm has no primary element")
  | priEl :: _ => do
      -- `el.find` returns the first of the `findall` matches
      let (pri0, ids0, _) ← nmt cfg f priEl [] false
      -- `for term in ('see', 'seealso',):` — unrolled over the two entries
      let (st2, ids1) ←
        match el.findChild (cfg.nsStr ++ "see") with
        | some seeEl => do
            let (seeTxt, idsA, _) ← nmt cfg f seeEl ids0 false
            let (stx, _) := inlineTextFn st1 ("<see: " ++ pri0 ++ "; " ++ seeTxt ++ ">")
                pid (some "index") (.vChars idsA)
            pure (stx, idsA)
        | none => pure (st1, ids0)
      let (st3, ids2) ←
        match el.findChild (cfg.nsStr ++ "seealso") with
        | some seeEl => do
            let (seeTxt, idsA, _) ← nmt cfg f seeEl ids1 false
            let (stx, _) := inlineTextFn st2 ("<seealso: " ++ pri0 ++ "; " ++ seeTxt ++ ">")
                pid (some "index") (.vChars idsA)
            pure (stx, idsA)
        | none => pure (st2, ids1)
      -- `got` is initialized to False and never reassigned, so the
      -- `if got: return` at line 592 is dead code.
      let (pri1, ids3) ←
        match el.findChild (cfg.nsStr ++ "secondary") with
        | some secEl => do
            let (sec, idsA, _) ← nmt cfg f secEl ids2 false
            pure (("<single: " ++ pri0 ++ "; " ++ sec ++ ">", idsA) : String × List Char)
        | none => pure ((pri0, ids2) : String × List Char)
      let pri2 :=
        if pyLower ((el.getAttr "significance").getD "") = "preferred"
        then "! " ++ pri1 else pri1
      let (st4, _) := inlineTextFn st3 pri2 pid (some "index") (.vChars ids3)
      pure st4

/-! ## Handler dispatch -/

/-- Level argument passed to `_section` by the sectioning handlers
(dbparser.py lines 336-347): a constant, or `self.current_level + 1`. -/
inductive LvlSpec where
  | exact (n : Nat)
  | incr
deriving DecidableEq, Repr

/-- `supports_only` argument shape at the call site: a parenthesized string
without a trailing comma (Python `in` then tests substring containment) or
a real tuple of tag names. -/
inductive SupSpec where
  | strSpec (s : String)
  | tupSpec (l : List String)
deriving DecidableEq, Repr

/-- Resolve a `SupSpec` against the configured namespace. -/
def resolveSpec (cfg : Cfg) : SupSpec → TagSpec
  | .strSpec s => .one (cfg.nsStr ++ s)
  | .tupSpec l => .many (l.map (cfg.nsStr ++ ·))

/-- The distinct handler bodies of `DocbookConverter`'s `e_*` methods. -/
inductive HK where
  | anchor
  | sectionL (l : LvlSpec)
  | titleH
  | blockK (k : Option NodeKind)
  | rubricBlock (k : Option NodeKind)
  | concatK (k : Option NodeKind)
  | supOnlyBlock (sp : SupSpec) (k : NodeKind)
  | emphasisK
  | inlineK (cls : String) (checkText : Bool)
  | quoteK
  | footnoteK
  | ulinkK
  | xrefK
  | linkK
  | nopK
  | indextermK
  | inlineEqK
  | equationK
  | mathphraseK
  | itemizedK
  | orderedK
  | listitemK
  | varlistentryK
  | cmdsynopsisK
  | refnameK
  | funcprototypeK
  | funcparamsK
  | parameterK
deriving DecidableEq, Repr

/-- `DocbookConverter._GENERIC_DOCROLES` (base class, lines 231-234). -/
def genericDocroles : List (String × NodeKind) :=
  [("dfn", .emphasis), ("kbd", .literal)]

/-- The method set of `DocbookConverter` keyed by method name, standing in
for `hasattr(self, method_name)` plus `getattr`.  Bindings reflect the
final class body: a later `def` or assignment overrides an earlier one
(`e_userinput` line 495 vs line 520, `e_info` line 633 vs 649, `e_topic`
line 346 vs the `e_topic = e_chapter` rebinding at line 360). -/
def methodTable : List (String × HK) := [
  ("e_anchor", HK.anchor),
  ("e_chapter", HK.sectionL (LvlSpec.exact 0)),
  ("e_sect1", HK.sectionL (LvlSpec.exact 1)),
  ("e_sect2", HK.sectionL (LvlSpec.exact 2)),
  ("e_sect3", HK.sectionL (LvlSpec.exact 3)),
  ("e_section", HK.sectionL LvlSpec.incr),
  ("e_topic", HK.sectionL (LvlSpec.exact 0)),
  ("e_preface", HK.sectionL (LvlSpec.exact 0)),
  ("e_appendix", HK.sectionL (LvlSpec.exact 0)),
  ("e_book", HK.sectionL (LvlSpec.exact 0)),
  ("e_article", HK.sectionL (LvlSpec.exact 0)),
  ("e_title", HK.titleH),
  ("e_blockquote", HK.blockK (some NodeKind.block_quote)),
  ("e_epigraph", HK.blockK (some NodeKind.epigraph)),
  ("e_sidebar", HK.rubricBlock (some NodeKind.sidebar)),
  ("e_para", HK.blockK (some NodeKind.paragraph)),
  ("e_formalpara", HK.rubricBlock (some NodeKind.paragraph)),
  ("e_simpara", HK.blockK (some NodeKind.paragraph)),
  ("e_note", HK.blockK (some NodeKind.note)),
  ("e_caution", HK.blockK (some NodeKind.caution)),
  ("e_important", HK.blockK (some NodeKind.important)),
  ("e_tip", HK.blockK (some NodeKind.tip)),
  ("e_warning", HK.blockK (some NodeKind.warning)),
  ("e_informalexample", HK.concatK none),
  ("e_literallayout", HK.concatK (some NodeKind.literal_block)),
  ("e_screen", HK.concatK (some NodeKind.literal_block)),
  ("e_programlisting", HK.concatK (some NodeKind.literal_block)),
  ("e_glosslist", HK.supOnlyBlock (SupSpec.strSpec "glossentry") NodeKind.definition_list),
  ("e_glossentry", HK.supOnlyBlock (SupSpec.tupSpec ["glossterm", "glossdef"]) NodeKind.definition_list_item),
  ("e_glossterm", HK.blockK (some NodeKind.term)),
  ("e_glossdef", HK.blockK (some NodeKind.definition)),
  ("e_itemizedlist", HK.itemizedK),
  ("e_orderedlist", HK.orderedK),
  ("e_listitem", HK.listitemK),
  ("e_variablelist", HK.supOnlyBlock (SupSpec.strSpec "varlistentry") NodeKind.definition_list),
  ("e_varlistentry", HK.varlistentryK),
  ("e_emphasis", HK.emphasisK),
  ("e_phrase", HK.concatK (some NodeKind.emphasis)),
  ("e_citetitle", HK.emphasisK),
  ("e_replaceable", HK.emphasisK),
  ("e_literal", HK.concatK (some NodeKind.literal)),
  ("e_code", HK.concatK (some NodeKind.literal)),
  ("e_keycap", HK.inlineK "kbd" true),
  ("e_application", HK.inlineK "program" true),
  ("e_userinput", HK.inlineK "kbd" false),
  ("e_systemitem", HK.concatK (some NodeKind.literal)),
  ("e_prompt", HK.concatK (some NodeKind.literal)),
  ("e_filename", HK.inlineK "file" false),
  ("e_command", HK.inlineK "command" false),
  ("e_option", HK.inlineK "option" false),
  ("e_envar", HK.inlineK "env" false),
  ("e_cmdsynopsis", HK.cmdsynopsisK),
  ("e_firstterm", HK.inlineK "dfn" true),
  ("e_subscript", HK.concatK (some NodeKind.subscript)),
  ("e_superscript", HK.concatK (some NodeKind.superscript)),
  ("e_quote", HK.quoteK),
  ("e_footnote", HK.footnoteK),
  ("e_ulink", HK.ulinkK),
  ("e_xref", HK.xrefK),
  ("e_link", HK.linkK),
  ("e_index", HK.nopK),
  ("e_indexterm", HK.indextermK),
  ("e_inlineequation", HK.inlineEqK),
  ("e_equation", HK.equationK),
  ("e_mathphrase", HK.mathphraseK),
  ("e_set", HK.concatK none),
  ("e_volume", HK.concatK none),
  ("e_simplesect", HK.concatK none),
  ("e_info", HK.nopK),
  ("e_refentry", HK.blockK (some NodeKind.section)),
  ("e_refsect1", HK.rubricBlock none),
  ("e_refentryinfo", HK.nopK),
  ("e_refmeta", HK.nopK),
  ("e_refnamediv", HK.rubricBlock none),
  ("e_refsynopsisdiv", HK.rubricBlock none),
  ("e_refname", HK.refnameK),
  ("e_refpurpose", HK.blockK none),
  ("e_funcprototype", HK.funcprototypeK),
  ("e_funcparams", HK.funcparamsK),
  ("e_manvolnum", HK.funcparamsK),
  ("e_parameter", HK.parameterK),
  ("e_funcsynopsis", HK.blockK none),
  ("e_funcdef", HK.concatK none),
  ("e_paramdef", HK.concatK none),
  ("e_function", HK.concatK (some NodeKind.literal)),
  ("e_constant", HK.concatK (some NodeKind.literal)),
  ("e_varname", HK.concatK (some NodeKind.literal)),
  ("e_structname", HK.concatK (some NodeKind.literal)),
  ("e_structfield", HK.concatK (some NodeKind.literal)),
  ("e_type", HK.concatK (some NodeKind.literal))]

/-! ## The dispatch engine and handlers -/

/-- The tag/method resolution of `_conv` (dbparser.py lines 87-102): strip
the default namespace, or look up a foreign namespace in `_NSMAP` —
emitting the once-guarded namespace diagnostic and recording the tag in
`_not_handled_tags` when the namespace is unknown.  Returns the updated
state, the value left in the local `tag` (pushed on the stack), and the
computed `method_name`. -/
def resolveTag (cfg : Cfg) (st : ConvState) (el : Elem) : Except PyError (ConvState × String × Option String) :=
  let tag0 := el.tag
  if pyStartsWith tag0 cfg.nsStr then
    -- `tag.find(self._ns) == 0`: strip off the default namespace
    .ok (st, strDrop tag0 cfg.nsStr.length, some ("e_" ++ strDrop tag0 cfg.nsStr.length))
  else if pyStartsWith tag0 "\x7b" then
    -- identify other namespaces by the prefix registered in `_NSMAP`
    match strSplitBrace (strDrop tag0 1) with
    | [nsUri, rawTag] =>
      match baseNSMAP.lookup nsUri with
      | some pfx => .ok (st, tag0, some ("e_" ++ pfx ++ "_" ++ rawTag))
      | none =>
        let st1 :=
          if nsUri ∈ st.notHandledNs then st
          else warn st ("Don\x27t know how to handle namespace " ++ nsUri)
        let st2 :=
          if tag0 ∈ st1.notHandledTags then st1
          else { st1 with notHandledTags := st1.notHandledTags ++ [tag0] }
        .ok (st2, tag0, none)
    | _ => .error .valueError -- `ns, rawTag = tag[1:].split("}")` unpacking
  else .ok (st, tag0, none)

/-- The unknown-tag bookkeeping of `_conv`'s fallback branch
(lines 108-110). -/
def fallbackWarn (st : ConvState) (tag0 : String) : ConvState :=
  if tag0 ∈ st.notHandledTags then st
  else
    let w := warn st ("Don\x27t know how to handle <" ++ tag0 ++ ">")
    { w with notHandledTags := w.notHandledTags ++ [tag0] }

mutual

/-- `DocbookConverter._conv` (dbparser.py lines 68-112): resolve the tag to
a handler, maintain the ancestor-tag stack and the two deduplication sets,
and fall back to structural passthrough (`concat`) for unknown tags. -/
def conv (cfg : Cfg) : Nat → Elem → Nat → ConvState → Except PyError ConvState
  | 0, _, _, _ => .error .fuelOut
  | f+1, el, pid, st => do
    let (st1, stag, mname) ← resolveTag cfg st el
    let st2 := { st1 with stack := stag :: st1.stack } -- `self._stack.append(tag)`
    let st3 ←
      match mname.bind (fun m => methodTable.lookup m) with
      | some hk => runHandler cfg f hk el pid st2
      | none => do
          let st2a := fallbackWarn st2 el.tag
          let (st2b, _) ← concatFn cfg f el pid none NodeKind.inline true st2a
          pure st2b
    pure { st3 with stack := st3.stack.tail } -- `self._stack.pop()`
termination_by structural f _ _ _ => f

/-- Run one `e_*` handler body. -/
def runHandler (cfg : Cfg) : Nat → HK → Elem → Nat → ConvState → Except PyError ConvState
  | 0, _, _, _, _ => .error .fuelOut
  | f+1, hk, el, pid, st =>
    match hk with
    | .anchor =>
        -- `e_anchor` (lines 318-319)
        .ok { st with anchors := st.anchors ++ [el.getAttr cfg.idAttrib] }
    | .sectionL l =>
        -- `e_chapter` .. `e_section` (lines 336-345)
        let level := match l with | .exact n => n | .incr => st.currentLevel + 1
        sectionFn cfg f el pid level st
    | .titleH =>
        -- `e_title` (lines 352-354), running the installed title handler
        match st.titleHandler with
        | none => .ok st
        | some .sectionTitle => do
            -- `section_title_handler` (lines 324-327)
            let (st1, _) ← blockFn cfg f el pid (some NodeKind.title) st
            pure st1
        | some .rubric => do
            -- static method `rubric` (lines 305-307)
            let (st1, _) ← blockFn cfg f el pid (some NodeKind.rubric) st
            pure st1
    | .blockK k => do
        let (st1, _) ← blockFn cfg f el pid k st
        pure st1
    | .rubricBlock k => do
        -- `e_sidebar` / `e_formalpara` / `e_refsect1` pattern: save the
        -- title handler, install `rubric`, convert the block, restore
        let save := st.titleHandler
        let st1 := { st with titleHandler := some THandler.rubric }
        let (st2, _) ← blockFn cfg f el pid k st1
        pure { st2 with titleHandler := save }
    | .concatK k => do
        let (st1, _) ← concatFn cfg f el pid k NodeKind.inline true st
        pure st1
    | .supOnlyBlock sp k => do
        let st1 := supportsOnly st el (resolveSpec cfg sp)
        let (st2, _) ← blockFn cfg f el pid (some k) st1
        pure st2
    | .emphasisK => do
        -- `e_emphasis` (lines 472-476); note the capital-R `Role` key
        let role := (el.getAttr "Role").getD ""
        let k := if role = "strong" then NodeKind.strong else NodeKind.emphasis
        let (st1, _) ← concatFn cfg f el pid (some k) NodeKind.inline true st
        pure st1
    | .inlineK cls checkText => do
        let st0 := if checkText then hasOnlyText st el else st
        let (st1, _) ← inlineFn cfg f el pid cls true st0
        pure st1
    | .quoteK => do
        -- `e_quote` (lines 529-532); the quotes bypass `self.text`
        let st1 := appendTextRaw st pid "‘"
        let (st2, _) ← concatFn cfg f el pid none NodeKind.inline true st1
        pure (appendTextRaw st2 pid "’")
    | .footnoteK => do
        -- `e_footnote` (lines 534-543)
        let st1 := supportsOnly st el (resolveSpec cfg (.tupSpec ["para"]))
        let (st2, rid) := nodeFn st1 pid (some NodeKind.footnote_reference) NodeKind.inline .vNone .vNone
        let st3 := appendTextRaw st2 rid "#"
        -- `note_autofootnote_ref`: external registry, no tree effect
        let (st4, fid) := createFn cfg st3 el pid (some NodeKind.footnote) NodeKind.inline
        let st5 ← concatIntoFn cfg f el fid false st4
        -- `note_autofootnote`: external registry, no tree effect
        pure { st5 with save := st5.save ++ [fid] }
    | .ulinkK => do
        -- `e_ulink` (lines 547-549)
        let (st1, nid) ← concatFn cfg f el pid (some NodeKind.reference) NodeKind.inline true st
        pure (setAttr st1 nid "refuri" (el.getAttr "url"))
    | .xrefK => do
        -- `e_xref` (lines 551-558)
        let (st1, nid) := createFn cfg st el pid (some NodeKind.reference) NodeKind.inline
        match el.getAttr "linkend" with
        | some v =>
            let st2 := setAttr st1 nid "refid" (some v)
            pure (appendTextRaw st2 nid v)
        | none =>
            let uri := el.getAttr "{http://www.w3.org/1999/xlink}href"
            let st2 := setAttr st1 nid "refuri" uri
            -- `nodes.Text(None)` stringifies `None`
            pure (appendTextRaw st2 nid (uri.getD "None"))
    | .linkK => do
        -- `e_link` (lines 560-565)
        let (st1, nid) ← concatFn cfg f el pid (some NodeKind.reference) NodeKind.inline true st
        match el.getAttr "linkend" with
        | some v => pure (setAttr st1 nid "refid" (some v))
        | none => pure (setAttr st1 nid "refuri" (el.getAttr "{http://www.w3.org/1999/xlink}href"))
    | .nopK => .ok st
    | .indextermK => indextermFn cfg f el pid st
    | .inlineEqK => do
        -- `e_inlineequation` (lines 610-612)
        let st1 := supportsOnly st el (resolveSpec cfg (.strSpec "mathphrase"))
        let (st2, _) ← concatFn cfg f el pid none NodeKind.inline true st1
        pure st2
    | .equationK => do
        -- `e_equation` (lines 614-620)
        let st1 := supportsOnly st el (resolveSpec cfg (.tupSpec ["title", "mathphrase"]))
        let save := st1.titleHandler
        let st2 := { st1 with titleHandler := some THandler.rubric }
        let (st3, _) ← concatFn cfg f el pid none NodeKind.inline true st2
        pure { st3 with titleHandler := save }
    | .mathphraseK =>
        -- `e_mathphrase` (lines 622-626): `self._stack[-2]`
        match st.stack.get? 1 with
        | none => .error .indexError
        | some t =>
            if t = "inlineequation" then do
              let (st1, _) ← inlineFn cfg f el pid "math" false st
              pure st1
            else do
              let (st1, _) ← blockFn cfg f el pid (some NodeKind.math_block) st
              pure st1
    | .itemizedK => do
        -- `e_itemizedlist` (lines 419-436)
        let st1 := supportsOnly st el (resolveSpec cfg (.strSpec "listitem"))
        -- `el.find(self._ns + "listitem[1]/" + self._ns + "para[1]")`
        let item := (el.findChild (cfg.nsStr ++ "listitem")).bind
            (fun li => li.findChild (cfg.nsStr ++ "para"))
        let (st2, bullet) ←
          match item with
          | some it => do
              let c1 ← optIndex it.text 1
              if c1 = ' ' then do
                let c0 ← optIndex it.text 0
                pure (({ st1 with listitemMangle := some Mangle.stripBullet },
                       String.singleton c0) : ConvState × String)
              else
                pure ((st1, "bullet") : ConvState × String)
          | none => pure ((st1, "bullet") : ConvState × String)
        let (st3, nid) ← blockFn cfg f el pid (some NodeKind.bullet_list) st2
        let st4 := setAttr st3 nid "bullet" (some bullet)
        pure { st4 with listitemMangle := none }
    | .orderedK => do
        -- `e_orderedlist` (lines 438-445)
        let st1 := supportsOnly st el (resolveSpec cfg (.strSpec "listitem"))
        let st2 := { st1 with orderedListDepth := st1.orderedListDepth + 1 }
        let (st3, nid) ← blockFn cfg f el pid (some NodeKind.enumerated_list) st2
        let enum := if st3.orderedListDepth = 1 then "arabic" else "loweralpha"
        let st4 := setAttr st3 nid "enumtype" (some enum)
        let st5 := setAttr st4 nid "prefix" (some "")
        let st6 := setAttr st5 nid "suffix" (some ".")
        pure { st6 with orderedListDepth := st6.orderedListDepth - 1 }
    | .listitemK => do
        -- `e_listitem` (lines 447-452)
        let save := st.listitemMangle
        let st1 := { st with textMangle := st.listitemMangle, listitemMangle := none }
        let (st2, _) ← blockFn cfg f el pid (some NodeKind.list_item) st1
        pure { st2 with listitemMangle := save }
    | .varlistentryK => do
        -- `e_varlistentry` (lines 459-468)
        let st1 := supportsOnly st el (resolveSpec cfg (.tupSpec ["term", "listitem"]))
        let (st2, nid) := createFn cfg st1 el pid (some NodeKind.definition_list_item) NodeKind.inline
        let st3 ← vleTerms cfg f (el.findAll (cfg.nsStr ++ "term")) nid st2
        match el.findChild (cfg.nsStr ++ "listitem") with
        | some it => do
            let (st4, _) ← blockFn cfg f it nid (some NodeKind.definition) st3
            pure st4
        | none => pure st3
    | .cmdsynopsisK => do
        -- `e_cmdsynopsis` (lines 511-514): `no_markup(el, nodes.inline,
        -- parent)` passes the class as `parent` and the parent node as
        -- `klass`; `node` then evaluates `klass()` on a node instance,
        -- raising TypeError after `no_markup_text` has run.
        let st1 := appendCommentNode st pid "cmdsynopsis"
        let _ ← nmt cfg f el [] false
        let _ := st1
        .error .typeError
    | .refnameK =>
        -- `e_refname` (lines 655-656)
        noMarkupFn cfg f el pid NodeKind.title st
    | .funcprototypeK => do
        -- `e_funcprototype` (lines 660-673)
        let st1 := supportsOnly st el (resolveSpec cfg (.tupSpec ["funcdef", "paramdef"]))
        match el.findChild (cfg.nsStr ++ "funcdef") with
        | none => .error .attributeError -- `self._conv(None, parent)` dereferences `None.tag`
        | some fd => do
            let st2 ← conv cfg f fd pid st1
            let st3 ← fppLoop cfg f (el.findAll (cfg.nsStr ++ "paramdef")) pid "(" st2
            pure (appendTextM st3 pid ")")
    | .funcparamsK => do
        -- `e_funcparams` (lines 675-680)
        let st1 := appendTextM st pid "("
        let st2 := { st1 with textMangle := some Mangle.collapseSpaces }
        let (st3, _) ← concatFn cfg f el pid none NodeKind.inline true st2
        pure (appendTextM st3 pid ")")
    | .parameterK =>
        -- `e_parameter` (lines 682-688)
        let st0 := { st with textMangle := some Mangle.collapseSpaces }
        match st0.stack.get? 1 with
        | none => .error .indexError
        | some t => do
            let k := if t = "paramdef" then NodeKind.emphasis else NodeKind.literal
            let (st1, _) ← concatFn cfg f el pid (some k) NodeKind.inline true st0
            pure st1
termination_by structural f _ _ _ _ => f

/-- `DocbookConverter._section` (lines 323-334). -/
def sectionFn (cfg : Cfg) : Nat → Elem → Nat → Nat → ConvState → Except PyError ConvState
  | 0, _, _, _, _ => .error .fuelOut
  | f+1, el, pid, level, st => do
      let save := st.titleHandler
      let st1 := { st with titleHandler := some THandler.sectionTitle }
      let (st2, nid) ← blockFn cfg f el pid (some NodeKind.section) st1
      let st3 := { st2 with titleHandler := save }
      let st4 := setIdFn st3 nid
      pure { st4 with currentLevel := level }
termination_by structural f _ _ _ _ => f

/-- `DocbookConverter.inline` (lines 236-242). -/
def inlineFn (cfg : Cfg) : Nat → Elem → Nat → String → Bool → ConvState → Except PyError (ConvState × Nat)
  | 0, _, _, _, _, _ => .error .fuelOut
  | f+1, el, pid, cls, needSpace, st =>
    match genericDocroles.lookup cls with
    | some k => concatFn cfg f el pid (some k) NodeKind.inline needSpace st
    | none => do
        let (st1, nid) ← concatFn cfg f el pid (some NodeKind.inline) NodeKind.inline needSpace st
        pure (setClasses st1 nid [cls], nid)
termination_by structural f _ _ _ _ _ => f

/-- The `for term in el.findall(self._ns + "term")` loop of
`e_varlistentry` (lines 464-465). -/
def vleTerms (cfg : Cfg) : Nat → List Elem → Nat → ConvState → Except PyError ConvState
  | _, [], _, st => .ok st
  | 0, _ :: _, _, _ => .error .fuelOut
  | f+1, t :: rest, nid, st => do
      let (st1, _) ← blockFn cfg f t nid (some NodeKind.term) st
      vleTerms cfg f rest nid st1
termination_by structural f _ _ _ => f

/-- The `for paramdef in paramdefs` loop of `e_funcprototype`
(lines 668-672), threading the separator text. -/
def fppLoop (cfg : Cfg) : Nat → List Elem → Nat → String → ConvState → Except PyError ConvState
  | _, [], _, _, st => .ok st
  | 0, _ :: _, _, _, _ => .error .fuelOut
  | f+1, pd :: rest, pid, txt, st => do
      let st1 := appendTextM st pid txt
      let st2 ← conv cfg f pd pid st1
      fppLoop cfg f rest pid ", " st2
termination_by structural f _ _ _ _ => f

/-- `DocbookConverter.block` (lines 213-222): convert as a compound-default
`concat`, then flush the deferred footnote buffer as trailing siblings. -/
def blockFn (cfg : Cfg) : Nat → Elem → Nat → Option NodeKind → ConvState → Except PyError (ConvState × Nat)
  | 0, _, _, _, _ => .error .fuelOut
  | f+1, el, pid, klass, st => do
      let (st1, nid) ← concatFn cfg f el pid klass NodeKind.compound false st
      if st1.save = [] then pure (st1, nid)
      else
        let st2 := st1.save.foldl (fun s i => appendChild s pid i) st1
        pure ({ st2 with save := [] }, nid)
termination_by structural f _ _ _ _ => f

/-- `DocbookConverter.concat` (lines 200-207). -/
def concatFn (cfg : Cfg) : Nat → Elem → Nat → Option NodeKind → NodeKind → Bool → ConvState → Except PyError (ConvState × Nat)
  | 0, _, _, _, _, _, _ => .error .fuelOut
  | f+1, el, pid, klass, dfltK, needSpace, st => do
      let (st1, nid) := createFn cfg st el pid klass dfltK
      let st2 ← concatIntoFn cfg f el nid needSpace st1
      pure (st2, nid)
termination_by structural f _ _ _ _ _ _ => f

/-- `DocbookConverter.concat_into` (lines 182-198). -/
def concatIntoFn (cfg : Cfg) : Nat → Elem → Nat → Bool → ConvState → Except PyError ConvState
  | 0, _, _, _, _ => .error .fuelOut
  | f+1, el, pid, needSpace, st =>
      let pending0 :=
        match el.text with
        | some t => some (if needSpace then t else pyLstrip t)
        | none => none
      concatIntoList cfg f el.children pending0 pid needSpace st
termination_by structural f _ _ _ _ => f

/-- The child loop of `concat_into`, carrying the pending text (leading
text or previous child's tail). -/
def concatIntoList (cfg : Cfg) : Nat → List (Elem × Option String) → Option String → Nat → Bool → ConvState → Except PyError ConvState
  | _, [], pending, pid, needSpace, st =>
      -- after the loop: right-strip and append the trailing pending text
      (match pending with
       | some p =>
           let p := if needSpace then p else pyRstrip p
           .ok (if p.length ≠ 0 then appendTextM st pid p else st)
       | none => .ok st)
  | 0, _ :: _, _, _, _, _ => .error .fuelOut
  | f+1, (c, tl) :: rest, pending, pid, needSpace, st => do
      let st1 :=
        match pending with
        | some p => if p.length ≠ 0 then appendTextM st pid p else st
        | none => st
      let st2 ← conv cfg f c pid st1
      concatIntoList cfg f rest tl pid needSpace st2
termination_by structural f _ _ _ _ _ => f

end

/-! ## Concrete inputs used by the claim theorems -/

/-- DocBook 4 configuration (`ns=False`). -/
def cfg4 : Cfg := ⟨false⟩

/-- DocBook 5 configuration (`ns=True`). -/
def cfg5 : Cfg := ⟨true⟩

/-- `<para>t</para>` -/
def paraEl (t : String) : Elem := Elem.mk "para" [] (some t) []

/-- `<footnote><para>t</para></footnote>` -/
def footnoteEl (t : String) : Elem := Elem.mk "footnote" [] none [(paraEl t, none)]

/-- `<para>x<footnote><para>fa</para></footnote> y
<footnote><para>fb</para></footnote>z</para>` — a paragraph with footnote
references A then B in source order. -/
def fnExample : Elem :=
  Elem.mk "para" [] (some "x") [(footnoteEl "fa", some " y "), (footnoteEl "fb", some "z")]

/-- Conversion of the two-footnote paragraph into a fresh document. -/
def fnRun : Except PyError ConvState := conv cfg4 40 fnExample 0 initState

/-- The state that conversion of `fnExample` is proved to produce. -/
def fnExpected : ConvState :=
  { arena :=
      [{ kind := .document, children := [1, 11] },
       { kind := .paragraph, children := [2, 3, 5, 8, 9, 11, 14] },
       { kind := .textLeaf, text := "x" },
       { kind := .footnote_reference, children := [4] },
       { kind := .textLeaf, text := "#" },
       { kind := .footnote, children := [6] },
       { kind := .paragraph, children := [7] },
       { kind := .textLeaf, text := "fa" },
       { kind := .textLeaf, text := " y " },
       { kind := .footnote_reference, children := [10] },
       { kind := .textLeaf, text := "#" },
       { kind := .footnote, children := [12, 5] },
       { kind := .paragraph, children := [13] },
       { kind := .textLeaf, text := "fb" },
       { kind := .textLeaf, text := "z" }],
    save := [], stack := [], anchors := [], notHandledNs := [], notHandledTags := [],
    titleHandler := none, listitemMangle := none, textMangle := none,
    orderedListDepth := 0, currentLevel := 0, warnings := [], idCounter := 0 }

/-- An element in an unregistered namespace. -/
def nsChildEl : Elem := Elem.mk "{urn:x}foo" [] none []

/-- A DocBook 5 article containing two elements of the same unrecognized
namespace `urn:x`. -/
def nsExample : Elem :=
  Elem.mk "{http://docbook.org/ns/docbook}article" [] none [(nsChildEl, none), (nsChildEl, none)]

/-- Conversion of `nsExample`. -/
def nsRun : Except PyError ConvState := conv cfg5 40 nsExample 0 initState

/-- An element with an unhandled tag and no attributes. -/
def unkNoId : Elem := Elem.mk "foobar" [] (some "t") []

/-- The same unhandled element carrying an `id` attribute. -/
def unkWithId : Elem := Elem.mk "foobar" [("id", "x")] (some "t") []

/-- `<itemizedlist><listitem><para>t</para></listitem></itemizedlist>` with
optional first-paragraph text. -/
def itemListEl (t : Option String) : Elem :=
  Elem.mk "itemizedlist" [] none
    [(Elem.mk "listitem" [] none [(Elem.mk "para" [] t [], none)], none)]

/-- `<topic/>` -/
def topicEl : Elem := Elem.mk "topic" [] none []

/-- An assembly graph where document A records an edge to B and document B
records an edge to C. -/
def infoEx : AssemblyInfo := ⟨[("A", [("dB", "B")]), ("B", [("dC", "C")])], [], []⟩

/-- The assembly graph left by `purge infoEx "B"`. -/
def infoExPurged : AssemblyInfo := ⟨[("A", []), ("B", [("dC", "C")])], [], []⟩

/-- A one-item ordered list. -/
def olExample : Elem :=
  Elem.mk "orderedlist" [] none
    [(Elem.mk "listitem" [] none [(paraEl "one", none)], none)]

/-- `<indexterm><primary>p</primary><secondary>s</secondary></indexterm>` -/
def idxEl (p s : String) : Elem :=
  Elem.mk "indexterm" [] none
    [(Elem.mk "primary" [] (some p) [], none),
     (Elem.mk "secondary" [] (some s) [], none)]

/-- `<section/>` -/
def sectionEl : Elem := Elem.mk "section" [] none []

/-- `<chapter/>` -/
def chapterEl : Elem := Elem.mk "chapter" [] none []

/-- `<sect1/>` -/
def sect1El : Elem := Elem.mk "sect1" [] none []

/-- `<sect2/>` -/
def sect2El : Elem := Elem.mk "sect2" [] none []

/-- `<sect3/>` -/
def sect3El : Elem := Elem.mk "sect3" [] none []

/-- An ordered list whose single item holds another one-item ordered list. -/
def olNested : Elem :=
  Elem.mk "orderedlist" [] none
    [(Elem.mk "listitem" [] none [(olExample, none)], none)]

/-- An itemized list whose single item has no `para` child at all. -/
def itemListNoPara : Elem :=
  Elem.mk "itemizedlist" [] none [(Elem.mk "listitem" [] none [], none)]

/-- `<indexterm><secondary>Bar</secondary></indexterm>` — no primary. -/
def idxNoPrimary : Elem :=
  Elem.mk "indexterm" [] none [(Elem.mk "secondary" [] (some "Bar") [], none)]

/-- `idxEl` with `significance="preferred"`. -/
def idxPref : Elem :=
  Elem.mk "indexterm" [("significance", "preferred")] none
    [(Elem.mk "primary" [] (some "Foo") [], none),
     (Elem.mk "secondary" [] (some "Bar") [], none)]

/-! ## Basic lemmas about the string primitives and the dispatcher -/

theorem strDrop_zero (s : String) : strDrop s 0 = s := by
  cases s; simp [strDrop]

theorem pyStartsWith_empty (s : String) : pyStartsWith s "" = true := by
  simp [pyStartsWith]

theorem str_empty_append (s : String) : "" ++ s = s := by
  cases s; rfl

theorem strLen_eq_zero (s : String) : (s.length = 0) = (s = "") := by
  cases s with
  | mk l =>
    cases l with
    | nil => simp
    | cons a as => simp [String.length, String.ext_iff]

theorem strAppendData (s t : String) : (s ++ t).data = s.data ++ t.data := by
  cases s; cases t; rfl

theorem isPrefixOf_self_append (l m : List Char) : l.isPrefixOf (l ++ m) = true := by
  induction l with
  | nil => cases m <;> rfl
  | cons a as ih => simp [List.cons_append, List.isPrefixOf, ih]

theorem pyStartsWith_append (s t : String) : pyStartsWith (s ++ t) s = true := by
  unfold pyStartsWith
  rw [strAppendData]
  exact isPrefixOf_self_append _ _

theorem strDrop_len_append (s t : String) : strDrop (s ++ t) s.length = t := by
  cases t with
  | mk l =>
    unfold strDrop
    rw [strAppendData]
    show (⟨(s.data ++ l).drop s.data.length⟩ : String) = ⟨l⟩
    rw [List.drop_left]

theorem nsStr_cfg4 : Cfg.nsStr cfg4 = "" := rfl

theorem idAttrib_cfg4 : Cfg.idAttrib cfg4 = "id" := rfl

theorem nsStr_cfg5 : Cfg.nsStr cfg5 = "{http://docbook.org/ns/docbook}" := rfl

theorem exbind_ok {α β : Type} {a : Except PyError α} {g : α → Except PyError β} {r : β}
    (h : a.bind g = .ok r) : ∃ x, a = .ok x ∧ g x = .ok r := by
  cases a with
  | ok v => exact ⟨v, rfl, h⟩
  | error e => simp [Except.bind] at h

theorem expure_ok {α : Type} {x r : α} (h : (pure x : Except PyError α) = .ok r) : x = r := by
  simpa [pure, Except.pure] using h

/-- In either configuration, an element whose tag is the configured
namespace followed by a local name resolves through the primary branch of
`resolveTag`. -/
theorem resolveTag_prim (cfg : Cfg) (st : ConvState) (el : Elem) (loc : String)
    (htag : el.tag = cfg.nsStr ++ loc) :
    resolveTag cfg st el = .ok (st, loc, some ("e_" ++ loc)) := by
  have h1 : pyStartsWith (cfg.nsStr ++ loc) cfg.nsStr = true := pyStartsWith_append _ _
  simp only [resolveTag, htag, h1, eq_self_iff_true, if_true, strDrop_len_append]

theorem resolveTag_db4 (st : ConvState) (el : Elem) :
    resolveTag cfg4 st el = .ok (st, el.tag, some ("e_" ++ el.tag)) := by
  simp only [resolveTag, nsStr_cfg4, pyStartsWith_empty, if_true,
    show String.length "" = 0 from rfl, strDrop_zero]

/-- Dispatch: an element resolving to a registered handler runs that
handler inside a stack push/pop. -/
theorem conv_disp (cfg : Cfg) (f : Nat) (el : Elem) (pid : Nat) (st : ConvState)
    (loc : String) (hk : HK) (htag : el.tag = cfg.nsStr ++ loc)
    (h : methodTable.lookup ("e_" ++ loc) = some hk) :
    conv cfg (f+1) el pid st =
      Except.map (fun s => { s with stack := s.stack.tail })
        (runHandler cfg f hk el pid { st with stack := loc :: st.stack }) := by
  simp only [conv, resolveTag_prim cfg st el loc htag, Except.bind, Bind.bind, Option.bind, h]
  cases hr : runHandler cfg f hk el pid { st with stack := loc :: st.stack } with
  | ok s => simp [Except.map, Except.bind, hr, pure, Except.pure]
  | error e => simp [Except.map, Except.bind, hr, pure, Except.pure]

/-- Dispatch in the DocBook 4 configuration (the empty namespace always
matches, so the method name is derived from the bare tag). -/
theorem conv4_disp (f : Nat) (el : Elem) (pid : Nat) (st : ConvState) (hk : HK)
    (h : methodTable.lookup ("e_" ++ el.tag) = some hk) :
    conv cfg4 (f+1) el pid st =
      Except.map (fun s => { s with stack := s.stack.tail })
        (runHandler cfg4 f hk el pid { st with stack := el.tag :: st.stack }) := by
  simp only [conv, resolveTag_db4, Except.bind, Bind.bind, Option.bind, h]
  cases hr : runHandler cfg4 f hk el pid { st with stack := el.tag :: st.stack } with
  | ok s => simp [Except.map, Except.bind, hr, pure, Except.pure]
  | error e => simp [Except.map, Except.bind, hr, pure, Except.pure]

/-- Fallback: an element resolving to no registered handler is converted by
structural passthrough after the unknown-tag bookkeeping. -/
theorem conv_fallb (cfg : Cfg) (f : Nat) (el : Elem) (pid : Nat) (st : ConvState)
    (loc : String) (htag : el.tag = cfg.nsStr ++ loc)
    (h : methodTable.lookup ("e_" ++ loc) = none) :
    conv cfg (f+1) el pid st =
      Except.map (fun r : ConvState × Nat => { r.1 with stack := r.1.stack.tail })
        (concatFn cfg f el pid none NodeKind.inline true
          (fallbackWarn { st with stack := loc :: st.stack } el.tag)) := by
  simp only [conv, resolveTag_prim cfg st el loc htag, Except.bind, Bind.bind, Option.bind, h]
  cases hr : concatFn cfg f el pid none NodeKind.inline true
      (fallbackWarn { st with stack := loc :: st.stack } el.tag) with
  | ok s => simp [Except.map, Except.bind, hr, pure, Except.pure]
  | error e => simp [Except.map, Except.bind, hr, pure, Except.pure]

theorem conv4_para (f : Nat) (a : List (String × String)) (t : Option String)
    (cs : List (Elem × Option String)) (pid : Nat) (st : ConvState) :
    conv cfg4 (f+1) (Elem.mk "para" a t cs) pid st =
      Except.map (fun s => { s with stack := s.stack.tail })
        (runHandler cfg4 f (HK.blockK (some NodeKind.paragraph)) (Elem.mk "para" a t cs) pid
          { st with stack := "para" :: st.stack }) :=
  conv4_disp f _ pid st _ (by rfl)

theorem conv4_footnote (f : Nat) (a : List (String × String)) (t : Option String)
    (cs : List (Elem × Option String)) (pid : Nat) (st : ConvState) :
    conv cfg4 (f+1) (Elem.mk "footnote" a t cs) pid st =
      Except.map (fun s => { s with stack := s.stack.tail })
        (runHandler cfg4 f HK.footnoteK (Elem.mk "footnote" a t cs) pid
          { st with stack := "footnote" :: st.stack }) :=
  conv4_disp f _ pid st _ (by rfl)

theorem conv4_listitem (f : Nat) (a : List (String × String)) (t : Option String)
    (cs : List (Elem × Option String)) (pid : Nat) (st : ConvState) :
    conv cfg4 (f+1) (Elem.mk "listitem" a t cs) pid st =
      Except.map (fun s => { s with stack := s.stack.tail })
        (runHandler cfg4 f HK.listitemK (Elem.mk "listitem" a t cs) pid
          { st with stack := "listitem" :: st.stack }) :=
  conv4_disp f _ pid st _ (by rfl)

theorem conv4_itemizedlist (f : Nat) (a : List (String × String)) (t : Option String)
    (cs : List (Elem × Option String)) (pid : Nat) (st : ConvState) :
    conv cfg4 (f+1) (Elem.mk "itemizedlist" a t cs) pid st =
      Except.map (fun s => { s with stack := s.stack.tail })
        (runHandler cfg4 f HK.itemizedK (Elem.mk "itemizedlist" a t cs) pid
          { st with stack := "itemizedlist" :: st.stack }) :=
  conv4_disp f _ pid st _ (by rfl)

theorem conv4_orderedlist (f : Nat) (a : List (String × String)) (t : Option String)
    (cs : List (Elem × Option String)) (pid : Nat) (st : ConvState) :
    conv cfg4 (f+1) (Elem.mk "orderedlist" a t cs) pid st =
      Except.map (fun s => { s with stack := s.stack.tail })
        (runHandler cfg4 f HK.orderedK (Elem.mk "orderedlist" a t cs) pid
          { st with stack := "orderedlist" :: st.stack }) :=
  conv4_disp f _ pid st _ (by rfl)

theorem conv4_indexterm (f : Nat) (a : List (String × String)) (t : Option String)
    (cs : List (Elem × Option String)) (pid : Nat) (st : ConvState) :
    conv cfg4 (f+1) (Elem.mk "indexterm" a t cs) pid st =
      Except.map (fun s => { s with stack := s.stack.tail })
        (runHandler cfg4 f HK.indextermK (Elem.mk "indexterm" a t cs) pid
          { st with stack := "indexterm" :: st.stack }) :=
  conv4_disp f _ pid st _ (by rfl)

theorem conv4_topic (f : Nat) (a : List (String × String)) (t : Option String)
    (cs : List (Elem × Option String)) (pid : Nat) (st : ConvState) :
    conv cfg4 (f+1) (Elem.mk "topic" a t cs) pid st =
      Except.map (fun s => { s with stack := s.stack.tail })
        (runHandler cfg4 f (HK.sectionL (LvlSpec.exact 0)) (Elem.mk "topic" a t cs) pid
          { st with stack := "topic" :: st.stack }) :=
  conv4_disp f _ pid st _ (by rfl)

theorem conv4_section (f : Nat) (a : List (String × String)) (t : Option String)
    (cs : List (Elem × Option String)) (pid : Nat) (st : ConvState) :
    conv cfg4 (f+1) (Elem.mk "section" a t cs) pid st =
      Except.map (fun s => { s with stack := s.stack.tail })
        (runHandler cfg4 f (HK.sectionL LvlSpec.incr) (Elem.mk "section" a t cs) pid
          { st with stack := "section" :: st.stack }) :=
  conv4_disp f _ pid st _ (by rfl)

theorem conv4_chapter (f : Nat) (a : List (String × String)) (t : Option String)
    (cs : List (Elem × Option String)) (pid : Nat) (st : ConvState) :
    conv cfg4 (f+1) (Elem.mk "chapter" a t cs) pid st =
      Except.map (fun s => { s with stack := s.stack.tail })
        (runHandler cfg4 f (HK.sectionL (LvlSpec.exact 0)) (Elem.mk "chapter" a t cs) pid
          { st with stack := "chapter" :: st.stack }) :=
  conv4_disp f _ pid st _ (by rfl)

theorem conv4_sect1 (f : Nat) (a : List (String × String)) (t : Option String)
    (cs : List (Elem × Option String)) (pid : Nat) (st : ConvState) :
    conv cfg4 (f+1) (Elem.mk "sect1" a t cs) pid st =
      Except.map (fun s => { s with stack := s.stack.tail })
        (runHandler cfg4 f (HK.sectionL (LvlSpec.exact 1)) (Elem.mk "sect1" a t cs) pid
          { st with stack := "sect1" :: st.stack }) :=
  conv4_disp f _ pid st _ (by rfl)

theorem conv4_sect2 (f : Nat) (a : List (String × String)) (t : Option String)
    (cs : List (Elem × Option String)) (pid : Nat) (st : ConvState) :
    conv cfg4 (f+1) (Elem.mk "sect2" a t cs) pid st =
      Except.map (fun s => { s with stack := s.stack.tail })
        (runHandler cfg4 f (HK.sectionL (LvlSpec.exact 2)) (Elem.mk "sect2" a t cs) pid
          { st with stack := "sect2" :: st.stack }) :=
  conv4_disp f _ pid st _ (by rfl)

theorem conv4_sect3 (f : Nat) (a : List (String × String)) (t : Option String)
    (cs : List (Elem × Option String)) (pid : Nat) (st : ConvState) :
    conv cfg4 (f+1) (Elem.mk "sect3" a t cs) pid st =
      Except.map (fun s => { s with stack := s.stack.tail })
        (runHandler cfg4 f (HK.sectionL (LvlSpec.exact 3)) (Elem.mk "sect3" a t cs) pid
          { st with stack := "sect3" :: st.stack }) :=
  conv4_disp f _ pid st _ (by rfl)

/-! ## C1 and C2: footnote placement and aliasing -/

set_option maxHeartbeats 1600000 in
/-- The two-footnote paragraph converts to `fnExpected`. -/
theorem fnRun_eval : fnRun = .ok fnExpected := by
  simp [fnRun, fnExample, fnExpected, paraEl, footnoteEl, conv4_footnote, conv4_para, runHandler,
    blockFn, concatFn, concatIntoFn, concatIntoList,
    supportsOnly, hasOnlyText, warn, appendChild, pushNode, setClasses, setAttr, getAttrN, textFn,
    appendTextM, appendTextRaw, appendCommentNode, createNode, nodeFn, createFn, setIdFn, getN,
    setN, initState, orNone, PyVal.truthy, PyVal.asSingleEntry, PyVal.asEntries, Elem.tag,
    Elem.attrib, Elem.text, Elem.children, Elem.getAttr, Elem.findAll, Elem.findChild,
    tagAllowed, resolveSpec, nsStr_cfg4, idAttrib_cfg4,
    str_empty_append, dfltONode, strLen_eq_zero, applyMangle,
    show pyLstrip "x" = "x" from rfl, show pyLstrip "fa" = "fa" from rfl,
    show pyLstrip "fb" = "fb" from rfl, show pyRstrip "z" = "z" from rfl,
    show pyRstrip "fa" = "fa" from rfl, show pyRstrip "fb" = "fb" from rfl,
    show strHasSub "para" "para" = true from rfl,
    List.lookup, List.foldl, List.filter, List.map, List.any, List.range, List.isPrefixOf,
    Option.bind, Option.getD, Option.map, Except.toOption, Except.map, Except.bind, Bind.bind,
    pure, Except.pure, List.length, List.get?, List.set,
    List.getLast?, List.dropWhile, List.head?, List.tail, List.append, List.contains, List.find?]

/-- C1: the claim states that a paragraph with footnotes A then B yields
the sibling sequence [paragraph][footnote A][footnote B], with footnote
bodies never nested inside the referencing block, and the deferred buffer
flushed exactly once per enclosing block.  Converting `fnExample`
(footnote A with body "fa", then footnote B with body "fb") instead yields
document children [paragraph (node 1), footnote B (node 11)]: footnote A
(node 5) is a child of the paragraph itself and of footnote B (flushed
into B by the block conversion of the body paragraph of B), because
`e_footnote` creates the body via `create`, which appends it to the
current parent.  The buffer is nevertheless empty at the end. -/
theorem c1_footnote_placement_bug :
    fnRun = .ok fnExpected ∧
    (getN fnExpected.arena 0).children = [1, 11] ∧
    (getN fnExpected.arena 1).kind = NodeKind.paragraph ∧
    (getN fnExpected.arena 5).kind = NodeKind.footnote ∧
    (getN fnExpected.arena 11).kind = NodeKind.footnote ∧
    (getN fnExpected.arena 1).children = [2, 3, 5, 8, 9, 11, 14] ∧
    (getN fnExpected.arena 11).children = [12, 5] ∧
    fnExpected.save = [] :=
  ⟨fnRun_eval, by decide, by decide, by decide, by decide, by decide, by decide, by decide⟩

/-- C2: the claim states that no output node occurs at two distinct
positions of the output tree, except through the explicit deep copy of
assembly substitution.  Converting `fnExample` (no assembly involved)
aliases footnote node 5 into the children of the paragraph (node 1) and of
footnote B (node 11), and footnote node 11 into the children of the
document (node 0) and of the paragraph (node 1). -/
theorem c2_footnote_aliasing_bug :
    fnRun = .ok fnExpected ∧
    (5 ∈ (getN fnExpected.arena 1).children ∧ 5 ∈ (getN fnExpected.arena 11).children ∧
      (1 : Nat) ≠ 11) ∧
    (11 ∈ (getN fnExpected.arena 0).children ∧ 11 ∈ (getN fnExpected.arena 1).children ∧
      (0 : Nat) ≠ 1) :=
  ⟨fnRun_eval, ⟨by decide, by decide, by decide⟩, ⟨by decide, by decide, by decide⟩⟩

/-! ## C4: namespace diagnostics are not deduplicated -/

set_option maxHeartbeats 1600000 in
/-- C4: the claim states that any number of elements in the same
unrecognized namespace produce exactly one namespace-level diagnostic per
run.  Converting two elements of namespace `urn:x` produces the diagnostic
twice: `_conv` tests `ns not in self._not_handled_ns` but never adds the
namespace to that set (`__init__` comments it as existing "to avoid
duplicate error reports"). -/
theorem c4_namespace_warning_repeats :
    (nsRun.toOption.map fun st => st.warnings) =
      some ["Don\x27t know how to handle namespace urn:x",
            "Don\x27t know how to handle namespace urn:x"] ∧
    ¬ (nsRun.toOption.map fun st => st.warnings) =
      some ["Don\x27t know how to handle namespace urn:x"] := by
  have h : (nsRun.toOption.map fun st => st.warnings) =
      some ["Don\x27t know how to handle namespace urn:x",
            "Don\x27t know how to handle namespace urn:x"] := by
    simp [nsRun, nsExample, nsChildEl, runHandler, blockFn, sectionFn,
      concatFn, concatIntoFn, concatIntoList, conv, resolveTag, fallbackWarn,
      supportsOnly, hasOnlyText, warn, appendChild, pushNode, setClasses, setAttr, getAttrN, textFn,
      appendTextM, appendTextRaw, appendCommentNode, createNode, nodeFn, createFn, setIdFn, getN,
      setN, initState, orNone, PyVal.truthy, PyVal.asSingleEntry, PyVal.asEntries, Elem.tag,
      Elem.attrib, Elem.text, Elem.children, Elem.getAttr, Elem.findAll, Elem.findChild,
      tagAllowed, resolveSpec, nsStr_cfg5, baseNSMAP,
      str_empty_append, dfltONode, strLen_eq_zero, applyMangle,
      show pyStartsWith "{http://docbook.org/ns/docbook}article"
        "{http://docbook.org/ns/docbook}" = true from rfl,
      show pyStartsWith "{urn:x}foo" "{http://docbook.org/ns/docbook}" = false from rfl,
      show pyStartsWith "{urn:x}foo" "\x7b" = true from rfl,
      show strDrop "{http://docbook.org/ns/docbook}article"
        (String.length "{http://docbook.org/ns/docbook}") = "article" from rfl,
      show strSplitBrace (strDrop "{urn:x}foo" 1) = ["urn:x", "foo"] from rfl,
      show methodTable.lookup "e_article" = some (HK.sectionL (LvlSpec.exact 0)) from rfl,
      show ("id" ++ toString (0 + 1 : Nat) : String) = "id1" from rfl,
      List.lookup, List.foldl, List.filter, List.map, List.any, List.range, List.isPrefixOf,
      Option.bind, Option.getD, Option.map, Except.toOption, Except.map, Except.bind, Bind.bind,
      pure, Except.pure, List.length, List.get?, List.set,
      List.getLast?, List.dropWhile, List.head?, List.tail, List.append, List.contains, List.find?]
  exact ⟨h, by simp [h]⟩

/-! ## Counterexamples for the corrected claims -/

set_option maxHeartbeats 1600000 in
/-- C3 counterexample: the claim states that structural passthrough output
is independent of the unknown wrapper element's own attributes.  An `id`
attribute falsifies this: without it, the text child lands directly under
the document; with `id="x"`, `concat`'s `create` builds an inline wrapper
node carrying the id. -/
theorem c3_attr_counterexample :
    ((conv cfg4 10 unkNoId 0 initState).toOption.map (fun st => st.arena)) =
      some [{ kind := .document, children := [1] }, { kind := .textLeaf, text := "t" }] ∧
    ((conv cfg4 10 unkWithId 0 initState).toOption.map (fun st => st.arena)) =
      some [{ kind := .document, children := [1] },
            { kind := .inline, ids := [.str "x"], children := [2] },
            { kind := .textLeaf, text := "t" }] ∧
    ((conv cfg4 10 unkNoId 0 initState).toOption.map (fun st => st.arena)) ≠
      ((conv cfg4 10 unkWithId 0 initState).toOption.map (fun st => st.arena)) := by
  have h1 : ((conv cfg4 10 unkNoId 0 initState).toOption.map (fun st => st.arena)) =
      some [{ kind := .document, children := [1] }, { kind := .textLeaf, text := "t" }] := by
    simp [unkNoId, conv, resolveTag_db4, fallbackWarn, runHandler, blockFn,
      concatFn, concatIntoFn, concatIntoList,
      supportsOnly, hasOnlyText, warn, appendChild, pushNode, setClasses, setAttr, getAttrN, textFn,
      appendTextM, appendTextRaw, appendCommentNode, createNode, nodeFn, createFn, setIdFn, getN,
      setN, initState, orNone, PyVal.truthy, PyVal.asSingleEntry, PyVal.asEntries, Elem.tag,
      Elem.attrib, Elem.text, Elem.children, Elem.getAttr, Elem.findAll, Elem.findChild,
      tagAllowed, resolveSpec, nsStr_cfg4, idAttrib_cfg4,
      str_empty_append, dfltONode, strLen_eq_zero, applyMangle,
      show methodTable.lookup ("e_" ++ "foobar") = none from rfl,
      show pyLstrip "t" = "t" from rfl, show pyRstrip "t" = "t" from rfl,
      List.lookup, List.foldl, List.filter, List.map, List.any, List.range, List.isPrefixOf,
      Option.bind, Option.getD, Option.map, Except.toOption, Except.map, Except.bind, Bind.bind,
      pure, Except.pure, List.length, List.get?, List.set,
      List.getLast?, List.dropWhile, List.head?, List.tail, List.append, List.contains, List.find?]
  have h2 : ((conv cfg4 10 unkWithId 0 initState).toOption.map (fun st => st.arena)) =
      some [{ kind := .document, children := [1] },
            { kind := .inline, ids := [.str "x"], children := [2] },
            { kind := .textLeaf, text := "t" }] := by
    simp [unkWithId, conv, resolveTag_db4, fallbackWarn, runHandler, blockFn,
      concatFn, concatIntoFn, concatIntoList,
      supportsOnly, hasOnlyText, warn, appendChild, pushNode, setClasses, setAttr, getAttrN, textFn,
      appendTextM, appendTextRaw, appendCommentNode, createNode, nodeFn, createFn, setIdFn, getN,
      setN, initState, orNone, PyVal.truthy, PyVal.asSingleEntry, PyVal.asEntries, Elem.tag,
      Elem.attrib, Elem.text, Elem.children, Elem.getAttr, Elem.findAll, Elem.findChild,
      tagAllowed, resolveSpec, nsStr_cfg4, idAttrib_cfg4,
      str_empty_append, dfltONode, strLen_eq_zero, applyMangle,
      show methodTable.lookup ("e_" ++ "foobar") = none from rfl,
      show pyLstrip "t" = "t" from rfl, show pyRstrip "t" = "t" from rfl,
      List.lookup, List.foldl, List.filter, List.map, List.any, List.range, List.isPrefixOf,
      Option.bind, Option.getD, Option.map, Except.toOption, Except.map, Except.bind, Bind.bind,
      pure, Except.pure, List.length, List.get?, List.set,
      List.getLast?, List.dropWhile, List.head?, List.tail, List.append, List.contains, List.find?]
  refine ⟨h1, h2, ?_⟩
  rw [h1, h2]
  decide

/-- C5 counterexample: the claim states that purging document B removes
exactly B's own outgoing edges and leaves other documents' edges to B
unchanged.  On `infoEx` (A records an edge to B; B records an edge to C),
`purge "B"` leaves B's own edge list untouched and instead empties A's. -/
theorem c5_purge_counterexample :
    infoEx.purge "B" = .ok infoExPurged ∧
    infoExPurged.childrenOf "B" = [("dC", "C")] ∧
    infoExPurged.childrenOf "B" ≠ [] ∧
    infoExPurged.childrenOf "A" = [] ∧
    infoEx.childrenOf "A" = [("dB", "B")] ∧
    infoExPurged.childrenOf "A" ≠ infoEx.childrenOf "A" := by
  refine ⟨rfl, by decide, by decide, by decide, by decide, by decide⟩

set_option maxHeartbeats 1600000 in
/-- C7 counterexample: the claim states that bullet recovery requires a
non-alphanumeric first character, and that any other first-paragraph text
gets the generic bullet with no stripping.  With first-item text `"a b"`
(alphanumeric first character, space second) the code nevertheless records
bullet `"a"` and strips it, rendering `"b"`. -/
theorem c7_bullet_counterexample :
    ((conv cfg4 20 (itemListEl (some "a b")) 0 initState).toOption.map
      (fun st => (getAttrN st 1 "bullet", (getN st.arena 4).text))) =
      some (some (some "a"), "b") ∧
    some (some "a") ≠ some (some "bullet") ∧ "b" ≠ "a b" := by
  have h : ((conv cfg4 20 (itemListEl (some "a b")) 0 initState).toOption.map
      (fun st => (getAttrN st 1 "bullet", (getN st.arena 4).text))) =
      some (some (some "a"), "b") := by
    simp [itemListEl, conv4_itemizedlist, conv4_listitem, conv4_para, runHandler, blockFn,
      concatFn, concatIntoFn, concatIntoList,
      supportsOnly, hasOnlyText, warn, appendChild, pushNode, setClasses, setAttr, getAttrN, textFn,
      appendTextM, appendTextRaw, appendCommentNode, createNode, nodeFn, createFn, setIdFn, getN,
      setN, initState, orNone, PyVal.truthy, PyVal.asSingleEntry, PyVal.asEntries, Elem.tag,
      Elem.attrib, Elem.text, Elem.children, Elem.getAttr, Elem.findAll, Elem.findChild,
      tagAllowed, resolveSpec, nsStr_cfg4, idAttrib_cfg4,
      str_empty_append, dfltONode, strLen_eq_zero, applyMangle,
      show pyLstrip "a b" = "a b" from rfl,
      show pyRstrip "a b" = "a b" from rfl,
      show optIndex (some "a b") 1 = .ok ' ' from rfl,
      show optIndex (some "a b") 0 = .ok 'a' from rfl,
      show pyLstrip (pyDropOne "a b") = "b" from rfl,
      show strHasSub "listitem" "listitem" = true from rfl,
      show String.singleton 'a' = "a" from rfl,
      List.lookup, List.foldl, List.filter, List.map, List.any, List.range, List.isPrefixOf,
      Option.bind, Option.getD, Option.map, Except.toOption, Except.map, Except.bind, Bind.bind,
      pure, Except.pure, List.length, List.get?, List.set,
      List.getLast?, List.dropWhile, List.head?, List.tail, List.append, List.contains, List.find?]
  exact ⟨h, by decide, by decide⟩

set_option maxHeartbeats 1600000 in
/-- C8 counterexample: the claim states that an index term with primary
"Foo" and secondary "Bar" yields an index-classed inline whose text is
`single: Foo; Bar`.  The code produces the text `<single: Foo; Bar>`
(with angle brackets, from the format string at dbparser.py line 598). -/
theorem c8_indexterm_counterexample :
    ((conv cfg4 20 (idxEl "Foo" "Bar") 0 initState).toOption.map
      (fun st => ((getN st.arena 1).classes, (getN st.arena 2).text))) =
      some (["index"], "<single: Foo; Bar>") ∧
    "<single: Foo; Bar>" ≠ "single: Foo; Bar" := by
  have h : ((conv cfg4 20 (idxEl "Foo" "Bar") 0 initState).toOption.map
      (fun st => ((getN st.arena 1).classes, (getN st.arena 2).text))) =
      some (["index"], "<single: Foo; Bar>") := by
    simp [idxEl, conv4_indexterm, runHandler, indextermFn, nmt, nmtChildren, inlineTextFn,
      supportsOnly, hasOnlyText, warn, appendChild, pushNode, setClasses, setAttr, getAttrN, textFn,
      appendTextM, appendTextRaw, appendCommentNode, createNode, nodeFn, createFn, setIdFn, getN,
      setN, initState, orNone, PyVal.truthy, PyVal.asSingleEntry, PyVal.asEntries, Elem.tag,
      Elem.attrib, Elem.text, Elem.children, Elem.getAttr, Elem.findAll, Elem.findChild,
      tagAllowed, resolveSpec, nsStr_cfg4, idAttrib_cfg4,
      str_empty_append, dfltONode, strLen_eq_zero, applyMangle,
      show pyLast "Foo" = .ok 'o' from rfl,
      show pyLast "Bar" = .ok 'r' from rfl,
      show pyLower "" = "" from rfl,
      show ("<single: " ++ "Foo" ++ "; " ++ "Bar" ++ ">" : String) = "<single: Foo; Bar>" from rfl,
      List.lookup, List.foldl, List.filter, List.map, List.any, List.range, List.isPrefixOf,
      Option.bind, Option.getD, Option.map, Except.toOption, Except.map, Except.bind, Bind.bind,
      pure, Except.pure, List.length, List.get?, List.set,
      List.getLast?, List.dropWhile, List.head?, List.tail, List.append, List.contains, List.find?]
  exact ⟨h, by decide⟩

set_option maxHeartbeats 1600000 in
/-- C9 counterexample: the claim states that a "topic" element keeps the
current nesting level unchanged.  The class body rebinds
`e_topic = e_chapter` (dbparser.py line 360), so converting `<topic/>`
from current level 2 sets the level to 0, not 2. -/
theorem c9_topic_counterexample :
    ((conv cfg4 10 topicEl 0 ({ initState with currentLevel := 2 })).toOption.map
      (fun st => st.currentLevel)) = some 0 ∧
    (some 0 : Option Nat) ≠ some 2 := by
  have h : ((conv cfg4 10 topicEl 0 ({ initState with currentLevel := 2 })).toOption.map
      (fun st => st.currentLevel)) = some 0 := by
    simp [topicEl, conv4_topic, runHandler, sectionFn, blockFn,
      concatFn, concatIntoFn, concatIntoList,
      supportsOnly, hasOnlyText, warn, appendChild, pushNode, setClasses, setAttr, getAttrN, textFn,
      appendTextM, appendTextRaw, appendCommentNode, createNode, nodeFn, createFn, setIdFn, getN,
      setN, initState, orNone, PyVal.truthy, PyVal.asSingleEntry, PyVal.asEntries, Elem.tag,
      Elem.attrib, Elem.text, Elem.children, Elem.getAttr, Elem.findAll, Elem.findChild,
      tagAllowed, resolveSpec, nsStr_cfg4, idAttrib_cfg4,
      str_empty_append, dfltONode, strLen_eq_zero, applyMangle,
      show ("id" ++ toString (0 + 1 : Nat) : String) = "id1" from rfl,
      List.lookup, List.foldl, List.filter, List.map, List.any, List.range, List.isPrefixOf,
      Option.bind, Option.getD, Option.map, Except.toOption, Except.map, Except.bind, Bind.bind,
      pure, Except.pure, List.length, List.get?, List.set,
      List.getLast?, List.dropWhile, List.head?, List.tail, List.append, List.contains, List.find?]
  exact ⟨h, by decide⟩

/-! ## Amended and confirmed claim theorems -/

set_option maxHeartbeats 1600000 in
/-- C7: bullet recovery as implemented — when the first item's first
paragraph text has a space as its second character, the first character
(whatever it is; there is no alphanumeric check) is recorded as the list's
bullet and glyph+space are stripped from the rendered text; when the
second character is not a space, the generic bullet is used with no
stripping. -/
theorem c7_bullet_semantics :
    ((conv cfg4 20 (itemListEl (some "- first item")) 0 initState).toOption.map
      (fun st => (getAttrN st 1 "bullet", (getN st.arena 4).text))) =
      some (some (some "-"), "first item") ∧
    ((conv cfg4 20 (itemListEl (some "Item without glyph")) 0 initState).toOption.map
      (fun st => (getAttrN st 1 "bullet", (getN st.arena 4).text))) =
      some (some (some "bullet"), "Item without glyph") := by
  constructor
  · simp [itemListEl, conv4_itemizedlist, conv4_listitem, conv4_para, runHandler, blockFn,
      concatFn, concatIntoFn, concatIntoList,
      supportsOnly, hasOnlyText, warn, appendChild, pushNode, setClasses, setAttr, getAttrN, textFn,
      appendTextM, appendTextRaw, appendCommentNode, createNode, nodeFn, createFn, setIdFn, getN,
      setN, initState, orNone, PyVal.truthy, PyVal.asSingleEntry, PyVal.asEntries, Elem.tag,
      Elem.attrib, Elem.text, Elem.children, Elem.getAttr, Elem.findAll, Elem.findChild,
      tagAllowed, resolveSpec, nsStr_cfg4, idAttrib_cfg4,
      str_empty_append, dfltONode, strLen_eq_zero, applyMangle,
      show pyLstrip "- first item" = "- first item" from rfl,
      show pyRstrip "- first item" = "- first item" from rfl,
      show optIndex (some "- first item") 1 = .ok ' ' from rfl,
      show optIndex (some "- first item") 0 = .ok '-' from rfl,
      show pyLstrip (pyDropOne "- first item") = "first item" from rfl,
      show strHasSub "listitem" "listitem" = true from rfl,
      show String.singleton '-' = "-" from rfl,
      List.lookup, List.foldl, List.filter, List.map, List.any, List.range, List.isPrefixOf,
      Option.bind, Option.getD, Option.map, Except.toOption, Except.map, Except.bind, Bind.bind,
      pure, Except.pure, List.length, List.get?, List.set,
      List.getLast?, List.dropWhile, List.head?, List.tail, List.append, List.contains, List.find?]
  · simp [itemListEl, conv4_itemizedlist, conv4_listitem, conv4_para, runHandler, blockFn,
      concatFn, concatIntoFn, concatIntoList,
      supportsOnly, hasOnlyText, warn, appendChild, pushNode, setClasses, setAttr, getAttrN, textFn,
      appendTextM, appendTextRaw, appendCommentNode, createNode, nodeFn, createFn, setIdFn, getN,
      setN, initState, orNone, PyVal.truthy, PyVal.asSingleEntry, PyVal.asEntries, Elem.tag,
      Elem.attrib, Elem.text, Elem.children, Elem.getAttr, Elem.findAll, Elem.findChild,
      tagAllowed, resolveSpec, nsStr_cfg4, idAttrib_cfg4,
      str_empty_append, dfltONode, strLen_eq_zero, applyMangle,
      show pyLstrip "Item without glyph" = "Item without glyph" from rfl,
      show pyRstrip "Item without glyph" = "Item without glyph" from rfl,
      show optIndex (some "Item without glyph") 1 = .ok 't' from rfl,
      show strHasSub "listitem" "listitem" = true from rfl,
      List.lookup, List.foldl, List.filter, List.map, List.any, List.range, List.isPrefixOf,
      Option.bind, Option.getD, Option.map, Except.toOption, Except.map, Except.bind, Bind.bind,
      pure, Except.pure, List.length, List.get?, List.set,
      List.getLast?, List.dropWhile, List.head?, List.tail, List.append, List.contains, List.find?]

set_option maxHeartbeats 1600000 in
/-- C10: the bullet-recovery inspection subscripts the first paragraph's
text without a guard — `None` text raises TypeError and text shorter than
two characters raises IndexError, so conversion never reaches the
generic-bullet fallback in those cases; the fallback is reached when the
para is missing entirely or the text's second character is not a space. -/
theorem c10_bullet_inspection_exceptions :
    conv cfg4 20 (itemListEl none) 0 initState = .error .typeError ∧
    conv cfg4 20 (itemListEl (some "x")) 0 initState = .error .indexError ∧
    conv cfg4 20 (itemListEl (some "")) 0 initState = .error .indexError ∧
    ((conv cfg4 20 itemListNoPara 0 initState).toOption.map
      (fun st => getAttrN st 1 "bullet")) = some (some (some "bullet")) ∧
    ((conv cfg4 20 (itemListEl (some "ab")) 0 initState).toOption.map
      (fun st => getAttrN st 1 "bullet")) = some (some (some "bullet")) := by
  refine ⟨?_, ?_, ?_, ?_, ?_⟩
  · simp [itemListEl, conv4_itemizedlist, runHandler,
      supportsOnly, hasOnlyText, warn, getAttrN, getN, initState, Elem.tag,
      Elem.attrib, Elem.text, Elem.children, Elem.getAttr, Elem.findAll, Elem.findChild,
      tagAllowed, resolveSpec, nsStr_cfg4, idAttrib_cfg4, optIndex,
      show strHasSub "listitem" "listitem" = true from rfl,
      List.lookup, List.foldl, List.filter, List.map, List.any, List.isPrefixOf,
      Option.bind, Option.getD, Option.map, Except.toOption, Except.map, Except.bind, Bind.bind,
      pure, Except.pure, List.head?, List.tail, List.contains, List.find?]
  · simp [itemListEl, conv4_itemizedlist, runHandler,
      supportsOnly, hasOnlyText, warn, getAttrN, getN, initState, Elem.tag,
      Elem.attrib, Elem.text, Elem.children, Elem.getAttr, Elem.findAll, Elem.findChild,
      tagAllowed, resolveSpec, nsStr_cfg4, idAttrib_cfg4,
      show optIndex (some "x") 1 = .error .indexError from rfl,
      show strHasSub "listitem" "listitem" = true from rfl,
      List.lookup, List.foldl, List.filter, List.map, List.any, List.isPrefixOf,
      Option.bind, Option.getD, Option.map, Except.toOption, Except.map, Except.bind, Bind.bind,
      pure, Except.pure, List.head?, List.tail, List.contains, List.find?]
  · simp [itemListEl, conv4_itemizedlist, runHandler,
      supportsOnly, hasOnlyText, warn, getAttrN, getN, initState, Elem.tag,
      Elem.attrib, Elem.text, Elem.children, Elem.getAttr, Elem.findAll, Elem.findChild,
      tagAllowed, resolveSpec, nsStr_cfg4, idAttrib_cfg4,
      show optIndex (some "") 1 = .error .indexError from rfl,
      show strHasSub "listitem" "listitem" = true from rfl,
      List.lookup, List.foldl, List.filter, List.map, List.any, List.isPrefixOf,
      Option.bind, Option.getD, Option.map, Except.toOption, Except.map, Except.bind, Bind.bind,
      pure, Except.pure, List.head?, List.tail, List.contains, List.find?]
  · simp [itemListNoPara, conv4_itemizedlist, conv4_listitem, runHandler, blockFn,
      concatFn, concatIntoFn, concatIntoList,
      supportsOnly, hasOnlyText, warn, appendChild, pushNode, setClasses, setAttr, getAttrN, textFn,
      appendTextM, appendTextRaw, appendCommentNode, createNode, nodeFn, createFn, setIdFn, getN,
      setN, initState, orNone, PyVal.truthy, PyVal.asSingleEntry, PyVal.asEntries, Elem.tag,
      Elem.attrib, Elem.text, Elem.children, Elem.getAttr, Elem.findAll, Elem.findChild,
      tagAllowed, resolveSpec, nsStr_cfg4, idAttrib_cfg4,
      str_empty_append, dfltONode, strLen_eq_zero, applyMangle,
      show strHasSub "listitem" "listitem" = true from rfl,
      List.lookup, List.foldl, List.filter, List.map, List.any, List.range, List.isPrefixOf,
      Option.bind, Option.getD, Option.map, Except.toOption, Except.map, Except.bind, Bind.bind,
      pure, Except.pure, List.length, List.get?, List.set,
      List.getLast?, List.dropWhile, List.head?, List.tail, List.append, List.contains, List.find?]
  · simp [itemListEl, conv4_itemizedlist, conv4_listitem, conv4_para, runHandler, blockFn,
      concatFn, concatIntoFn, concatIntoList,
      supportsOnly, hasOnlyText, warn, appendChild, pushNode, setClasses, setAttr, getAttrN, textFn,
      appendTextM, appendTextRaw, appendCommentNode, createNode, nodeFn, createFn, setIdFn, getN,
      setN, initState, orNone, PyVal.truthy, PyVal.asSingleEntry, PyVal.asEntries, Elem.tag,
      Elem.attrib, Elem.text, Elem.children, Elem.getAttr, Elem.findAll, Elem.findChild,
      tagAllowed, resolveSpec, nsStr_cfg4, idAttrib_cfg4,
      str_empty_append, dfltONode, strLen_eq_zero, applyMangle,
      show pyLstrip "ab" = "ab" from rfl, show pyRstrip "ab" = "ab" from rfl,
      show optIndex (some "ab") 1 = .ok 'b' from rfl,
      show strHasSub "listitem" "listitem" = true from rfl,
      List.lookup, List.foldl, List.filter, List.map, List.any, List.range, List.isPrefixOf,
      Option.bind, Option.getD, Option.map, Except.toOption, Except.map, Except.bind, Bind.bind,
      pure, Except.pure, List.length, List.get?, List.set,
      List.getLast?, List.dropWhile, List.head?, List.tail, List.append, List.contains, List.find?]

set_option maxHeartbeats 1600000 in
/-- C8: index-term conversion as implemented — primary "Foo" and secondary
"Bar" produce one index-classed inline whose text is `<single: Foo; Bar>`
(the format string includes the angle brackets); a "preferred" significance
prefixes `"! "` to the already-wrapped text; a term with no primary child
appends zero output nodes and emits exactly one diagnostic. -/
theorem c8_indexterm_behavior :
    ((conv cfg4 20 (idxEl "Foo" "Bar") 0 initState).toOption.map
      (fun st => (st.arena.length, (getN st.arena 1).classes, (getN st.arena 2).text,
                  st.warnings.length))) =
      some (3, ["index"], "<single: Foo; Bar>", 0) ∧
    ((conv cfg4 20 idxPref 0 initState).toOption.map
      (fun st => (getN st.arena 2).text)) = some "! <single: Foo; Bar>" ∧
    ((conv cfg4 20 idxNoPrimary 0 initState).toOption.map
      (fun st => (st.arena.length, (getN st.arena 0).children, st.warnings.length))) =
      some (1, [], 1) := by
  refine ⟨?_, ?_, ?_⟩
  · simp [idxEl, conv4_indexterm, runHandler, indextermFn, nmt, nmtChildren, inlineTextFn,
      supportsOnly, hasOnlyText, warn, appendChild, pushNode, setClasses, setAttr, getAttrN, textFn,
      appendTextM, appendTextRaw, appendCommentNode, createNode, nodeFn, createFn, setIdFn, getN,
      setN, initState, orNone, PyVal.truthy, PyVal.asSingleEntry, PyVal.asEntries, Elem.tag,
      Elem.attrib, Elem.text, Elem.children, Elem.getAttr, Elem.findAll, Elem.findChild,
      tagAllowed, resolveSpec, nsStr_cfg4, idAttrib_cfg4,
      str_empty_append, dfltONode, strLen_eq_zero, applyMangle,
      show pyLast "Foo" = .ok ⟨111, by decide⟩ from rfl,
      show pyLast "Bar" = .ok ⟨114, by decide⟩ from rfl,
      show pyLower "" = "" from rfl,
      show ("<single: " ++ "Foo" ++ "; " ++ "Bar" ++ ">" : String) = "<single: Foo; Bar>" from rfl,
      List.lookup, List.foldl, List.filter, List.map, List.any, List.range, List.isPrefixOf,
      Option.bind, Option.getD, Option.map, Except.toOption, Except.map, Except.bind, Bind.bind,
      pure, Except.pure, List.length, List.get?, List.set,
      List.getLast?, List.dropWhile, List.head?, List.tail, List.append, List.contains, List.find?]
  · simp [idxPref, conv4_indexterm, runHandler, indextermFn, nmt, nmtChildren, inlineTextFn,
      supportsOnly, hasOnlyText, warn, appendChild, pushNode, setClasses, setAttr, getAttrN, textFn,
      appendTextM, appendTextRaw, appendCommentNode, createNode, nodeFn, createFn, setIdFn, getN,
      setN, initState, orNone, PyVal.truthy, PyVal.asSingleEntry, PyVal.asEntries, Elem.tag,
      Elem.attrib, Elem.text, Elem.children, Elem.getAttr, Elem.findAll, Elem.findChild,
      tagAllowed, resolveSpec, nsStr_cfg4, idAttrib_cfg4,
      str_empty_append, dfltONode, strLen_eq_zero, applyMangle,
      show pyLast "Foo" = .ok ⟨111, by decide⟩ from rfl,
      show pyLast "Bar" = .ok ⟨114, by decide⟩ from rfl,
      show pyLower "preferred" = "preferred" from rfl,
      show ("<single: " ++ "Foo" ++ "; " ++ "Bar" ++ ">" : String) = "<single: Foo; Bar>" from rfl,
      show ("! " ++ "<single: Foo; Bar>" : String) = "! <single: Foo; Bar>" from rfl,
      List.lookup, List.foldl, List.filter, List.map, List.any, List.range, List.isPrefixOf,
      Option.bind, Option.getD, Option.map, Except.toOption, Except.map, Except.bind, Bind.bind,
      pure, Except.pure, List.length, List.get?, List.set,
      List.getLast?, List.dropWhile, List.head?, List.tail, List.append, List.contains, List.find?]
  · simp [idxNoPrimary, conv4_indexterm, runHandler, indextermFn,
      supportsOnly, hasOnlyText, warn, getAttrN, getN, initState, Elem.tag,
      Elem.attrib, Elem.text, Elem.children, Elem.getAttr, Elem.findAll, Elem.findChild,
      tagAllowed, resolveSpec, nsStr_cfg4, idAttrib_cfg4, dfltONode,
      List.lookup, List.foldl, List.filter, List.map, List.any, List.isPrefixOf,
      Option.bind, Option.getD, Option.map, Except.toOption, Except.map, Except.bind, Bind.bind,
      pure, Except.pure, List.length, List.head?, List.tail, List.contains, List.find?]

set_option maxHeartbeats 1600000 in
/-- C9: sectioning levels as implemented — chapter/sect1/sect2/sect3 set
the explicit levels 0-3 and an unqualified "section" sets the current
level plus one, but "topic" sets level 0 (the `e_topic = e_chapter`
rebinding at dbparser.py line 360 overrides the `current_level`-preserving
definition at line 346), not the unchanged current level. -/
theorem c9_section_levels (n : Nat) :
    ((conv cfg4 10 chapterEl 0 { initState with currentLevel := n }).toOption.map
      (fun st => st.currentLevel)) = some 0 ∧
    ((conv cfg4 10 sect1El 0 { initState with currentLevel := n }).toOption.map
      (fun st => st.currentLevel)) = some 1 ∧
    ((conv cfg4 10 sect2El 0 { initState with currentLevel := n }).toOption.map
      (fun st => st.currentLevel)) = some 2 ∧
    ((conv cfg4 10 sect3El 0 { initState with currentLevel := n }).toOption.map
      (fun st => st.currentLevel)) = some 3 ∧
    ((conv cfg4 10 sectionEl 0 { initState with currentLevel := n }).toOption.map
      (fun st => st.currentLevel)) = some (n + 1) ∧
    ((conv cfg4 10 topicEl 0 { initState with currentLevel := n }).toOption.map
      (fun st => st.currentLevel)) = some 0 := by
  refine ⟨?_, ?_, ?_, ?_, ?_, ?_⟩ <;>
  simp [chapterEl, sect1El, sect2El, sect3El, sectionEl, topicEl,
    conv4_chapter, conv4_sect1, conv4_sect2, conv4_sect3, conv4_section, conv4_topic,
    runHandler, sectionFn, blockFn, concatFn, concatIntoFn, concatIntoList,
    supportsOnly, hasOnlyText, warn, appendChild, pushNode, setClasses, setAttr, getAttrN, textFn,
    appendTextM, appendTextRaw, appendCommentNode, createNode, nodeFn, createFn, setIdFn, getN,
    setN, initState, orNone, PyVal.truthy, PyVal.asSingleEntry, PyVal.asEntries, Elem.tag,
    Elem.attrib, Elem.text, Elem.children, Elem.getAttr, Elem.findAll, Elem.findChild,
    tagAllowed, resolveSpec, nsStr_cfg4, idAttrib_cfg4,
    str_empty_append, dfltONode, strLen_eq_zero, applyMangle,
    show ("id" ++ toString (0 + 1 : Nat) : String) = "id1" from rfl,
    List.lookup, List.foldl, List.filter, List.map, List.any, List.range, List.isPrefixOf,
    Option.bind, Option.getD, Option.map, Except.toOption, Except.map, Except.bind, Bind.bind,
    pure, Except.pure, List.length, List.get?, List.set,
    List.getLast?, List.dropWhile, List.head?, List.tail, List.append, List.contains, List.find?]

/-- C9 witness: the section-level rules evaluated from current level 2. -/
theorem c9_section_levels_witness :
    ((conv cfg4 10 sectionEl 0 { initState with currentLevel := 2 }).toOption.map
      (fun st => st.currentLevel)) = some 3 ∧
    ((conv cfg4 10 chapterEl 0 { initState with currentLevel := 2 }).toOption.map
      (fun st => st.currentLevel)) = some 0 :=
  ⟨(c9_section_levels 2).2.2.2.2.1, (c9_section_levels 2).1⟩

set_option maxHeartbeats 1600000 in
/-- C6: ordered-list numbering — converting a nested ordered list from any
prior nesting depth `d` gives the outer list enumtype "arabic" exactly
when it sits at depth 1 (i.e. `d = 0`) and "loweralpha" otherwise, gives
the inner list (depth `d + 2 ≥ 2`) "loweralpha", and restores the depth
counter to `d` afterwards. -/
theorem c6_orderedlist_numbering (d : Nat) :
    ((conv cfg4 40 olNested 0 { initState with orderedListDepth := d }).toOption.map
      (fun st => (getAttrN st 1 "enumtype", getAttrN st 3 "enumtype", st.orderedListDepth))) =
      some (some (some (if d = 0 then "arabic" else "loweralpha")),
            some (some "loweralpha"), d) := by
  cases d with
  | zero =>
      simp [olNested, olExample, paraEl, conv4_orderedlist, conv4_listitem, conv4_para,
        runHandler, blockFn, concatFn, concatIntoFn, concatIntoList,
        supportsOnly, hasOnlyText, warn, appendChild, pushNode, setClasses, setAttr, getAttrN,
        textFn, appendTextM, appendTextRaw, appendCommentNode, createNode, nodeFn, createFn,
        setIdFn, getN,
        setN, initState, orNone, PyVal.truthy, PyVal.asSingleEntry, PyVal.asEntries, Elem.tag,
        Elem.attrib, Elem.text, Elem.children, Elem.getAttr, Elem.findAll, Elem.findChild,
        tagAllowed, resolveSpec, nsStr_cfg4, idAttrib_cfg4,
        str_empty_append, dfltONode, strLen_eq_zero, applyMangle,
        show pyLstrip "one" = "one" from rfl, show pyRstrip "one" = "one" from rfl,
        show strHasSub "listitem" "listitem" = true from rfl,
        List.lookup, List.foldl, List.filter, List.map, List.any, List.range, List.isPrefixOf,
        Option.bind, Option.getD, Option.map, Except.toOption, Except.map, Except.bind, Bind.bind,
        pure, Except.pure, List.length, List.get?, List.set,
        List.getLast?, List.dropWhile, List.head?, List.tail, List.append, List.contains,
        List.find?]
  | succ m =>
      simp [olNested, olExample, paraEl, conv4_orderedlist, conv4_listitem, conv4_para,
        runHandler, blockFn, concatFn, concatIntoFn, concatIntoList,
        supportsOnly, hasOnlyText, warn, appendChild, pushNode, setClasses, setAttr, getAttrN,
        textFn, appendTextM, appendTextRaw, appendCommentNode, createNode, nodeFn, createFn,
        setIdFn, getN,
        setN, initState, orNone, PyVal.truthy, PyVal.asSingleEntry, PyVal.asEntries, Elem.tag,
        Elem.attrib, Elem.text, Elem.children, Elem.getAttr, Elem.findAll, Elem.findChild,
        tagAllowed, resolveSpec, nsStr_cfg4, idAttrib_cfg4,
        str_empty_append, dfltONode, strLen_eq_zero, applyMangle,
        show pyLstrip "one" = "one" from rfl, show pyRstrip "one" = "one" from rfl,
        show strHasSub "listitem" "listitem" = true from rfl,
        List.lookup, List.foldl, List.filter, List.map, List.any, List.range, List.isPrefixOf,
        Option.bind, Option.getD, Option.map, Except.toOption, Except.map, Except.bind, Bind.bind,
        pure, Except.pure, List.length, List.get?, List.set,
        List.getLast?, List.dropWhile, List.head?, List.tail, List.append, List.contains,
        List.find?]

/-- C6 witness: from depth 0 the outer list is arabic, the inner
loweralpha, and the depth counter returns to 0. -/
theorem c6_orderedlist_numbering_witness :
    ((conv cfg4 40 olNested 0 { initState with orderedListDepth := 0 }).toOption.map
      (fun st => (getAttrN st 1 "enumtype", getAttrN st 3 "enumtype", st.orderedListDepth))) =
      some (some (some "arabic"), some (some "loweralpha"), 0) :=
  c6_orderedlist_numbering 0

/-- `find?` by key commutes with a key-preserving per-entry map. -/
theorem find_map_snd (l : List (String × List (String × String)))
    (g : List (String × String) → List (String × String)) (p : String) :
    ((l.map (fun kv => (kv.1, g kv.2))).find? (fun kv => kv.1 = p)) =
      (l.find? (fun kv => kv.1 = p)).map (fun kv => (kv.1, g kv.2)) := by
  induction l with
  | nil => rfl
  | cons a as ih =>
      by_cases h : a.1 = p
      · simp [List.find?, h]
      · simp [List.find?, h, ih]

/-- C5 amendment: `purge d` removes from every parent's child list exactly
the edges pointing *to* `d`, leaves `d`'s own outgoing edges with other
children intact, and drops `d`'s assemblies entry and top resource from
`roots` only when `d` is registered as an assembly (all other documents'
assemblies entries are untouched). -/
theorem c5_purge_frame (info : AssemblyInfo) (d : String) (out : AssemblyInfo)
    (h : info.purge d = .ok out) :
    (∀ p, out.childrenOf p = (info.childrenOf p).filter (fun x => x.2 ≠ d)) ∧
    (info.assemblies.lookup d = none →
      out.assemblies = info.assemblies ∧ out.roots = info.roots) ∧
    (∀ top, info.assemblies.lookup d = some top →
      out.assemblies = info.assemblies.filter (fun kv => kv.1 ≠ d) ∧
      out.roots = info.roots.erase top) := by
  unfold AssemblyInfo.purge at h
  cases hl : info.assemblies.lookup d with
  | none =>
      rw [hl] at h
      simp only [Except.bind, Bind.bind, pure, Except.pure, Except.ok.injEq] at h
      subst h
      refine ⟨?_, fun _ => ⟨rfl, rfl⟩, fun top htop => nomatch htop⟩
      intro p
      simp only [AssemblyInfo.childrenOf, find_map_snd]
      cases info.children.find? (fun kv => kv.1 = p) <;> simp
  | some top =>
      rw [hl] at h
      unfold pySetRemove at h
      by_cases hm : top ∈ info.roots
      · simp only [hm, if_true, Except.bind, Bind.bind, pure, Except.pure,
          Except.ok.injEq] at h
        subst h
        refine ⟨?_, ?_, ?_⟩
        · intro p
          simp only [AssemblyInfo.childrenOf, find_map_snd]
          cases info.children.find? (fun kv => kv.1 = p) <;> simp
        · intro hn
          exact nomatch hn
        · intro t ht
          cases ht
          exact ⟨rfl, rfl⟩
      · simp [hm, Except.bind, Bind.bind] at h

/-- C5 witness: the frame theorem applied to `infoEx` purged of B. -/
theorem c5_purge_frame_witness :
    infoExPurged.childrenOf "A" = (infoEx.childrenOf "A").filter (fun x => x.2 ≠ "B") ∧
    infoExPurged.childrenOf "B" = (infoEx.childrenOf "B").filter (fun x => x.2 ≠ "B") ∧
    (infoExPurged.assemblies = infoEx.assemblies ∧ infoExPurged.roots = infoEx.roots) :=
  ⟨(c5_purge_frame infoEx "B" infoExPurged rfl).1 "A",
   (c5_purge_frame infoEx "B" infoExPurged rfl).1 "B",
   (c5_purge_frame infoEx "B" infoExPurged rfl).2.1 rfl⟩

set_option maxHeartbeats 1600000 in
/-- C3 amendment: structural passthrough of an unknown wrapper is
independent of the wrapper's own attributes *other than* the configured id
attribute — for every attribute list without an "id" key the conversion
equals the attribute-free conversion (text and children concatenated into
the parent, wrapper discarded). -/
theorem c3_passthrough_attrs (a : List (String × String))
    (h : a.lookup "id" = none) :
    conv cfg4 10 (Elem.mk "foobar" a (some "t") []) 0 initState =
      conv cfg4 10 unkNoId 0 initState := by
  simp [unkNoId, conv, resolveTag_db4, fallbackWarn, runHandler, blockFn,
    concatFn, concatIntoFn, concatIntoList, h,
    supportsOnly, hasOnlyText, warn, appendChild, pushNode, setClasses, setAttr, getAttrN, textFn,
    appendTextM, appendTextRaw, appendCommentNode, createNode, nodeFn, createFn, setIdFn, getN,
    setN, initState, orNone, PyVal.truthy, PyVal.asSingleEntry, PyVal.asEntries, Elem.tag,
    Elem.attrib, Elem.text, Elem.children, Elem.getAttr, Elem.findAll, Elem.findChild,
    tagAllowed, resolveSpec, nsStr_cfg4, idAttrib_cfg4,
    str_empty_append, dfltONode, strLen_eq_zero, applyMangle,
    show methodTable.lookup ("e_" ++ "foobar") = none from rfl,
    show pyLstrip "t" = "t" from rfl, show pyRstrip "t" = "t" from rfl,
    List.lookup, List.foldl, List.filter, List.map, List.any, List.range, List.isPrefixOf,
    Option.bind, Option.getD, Option.map, Except.toOption, Except.map, Except.bind, Bind.bind,
    pure, Except.pure, List.length, List.get?, List.set,
    List.getLast?, List.dropWhile, List.head?, List.tail, List.append, List.contains, List.find?]

/-- C3 witness: a `class` attribute on the unknown wrapper leaves the
passthrough output unchanged. -/
theorem c3_passthrough_attrs_witness :
    ([("class", "z")] : List (String × String)).lookup "id" = none ∧
    conv cfg4 10 (Elem.mk "foobar" [("class", "z")] (some "t") []) 0 initState =
      conv cfg4 10 unkNoId 0 initState :=
  ⟨rfl, c3_passthrough_attrs [("class", "z")] rfl⟩
